import Mathlib

/-!
# Solar system simulation: embedding of `main.cpp` and `solarsystem.h`

The driver `main.cpp` and the class declaration `solarsystem.h` are translated
into Lean.  The scalar type `double` is idealised as an arbitrary linearly
ordered field `α` (exact arithmetic); the functions and constants of `<cmath>`
that the program uses (`sqrt`, `tan`, `M_PI`) are supplied by the class
`CMath`, whose instance over `ℝ` is the usual one.

The bodies of the member functions of `SolarSystem`, of `CelestialBody`, of
`vec3` and of `Verlet` are not part of the sources at hand; each of them is
modelled from the design document and marked as such.
-/

namespace SolarSim

/-- Functions and constants of `<cmath>` used by the program. -/
class CMath (α : Type) where
  /-- The function `sqrt` of `<cmath>`. -/
  sqrt : α → α
  /-- The function `tan` of `<cmath>`. -/
  tan : α → α
  /-- The constant `M_PI` of `<cmath>`. -/
  M_PI : α

export CMath (M_PI)

/-- The real numbers with the real square root, tangent and `π`. -/
noncomputable instance : CMath ℝ where
  sqrt := Real.sqrt
  tan := Real.tan
  M_PI := Real.pi

/-! ## vec3 -/

/-- Modelled from the spec: `vec3.h` is missing; the "3-component real-vector
arithmetic primitive (addition, scalar multiply, dot product, cross product,
norm)". -/
@[ext]
structure vec3 (α : Type) where
  x : α
  y : α
  z : α
deriving DecidableEq, Repr

section Vec3

variable {α : Type} [LinearOrderedField α]

instance : Zero (vec3 α) := ⟨⟨0, 0, 0⟩⟩
instance : Add (vec3 α) := ⟨fun a b => ⟨a.x + b.x, a.y + b.y, a.z + b.z⟩⟩
instance : Neg (vec3 α) := ⟨fun a => ⟨-a.x, -a.y, -a.z⟩⟩
instance : Sub (vec3 α) := ⟨fun a b => ⟨a.x - b.x, a.y - b.y, a.z - b.z⟩⟩
instance : HMul (vec3 α) α (vec3 α) := ⟨fun a k => ⟨a.x * k, a.y * k, a.z * k⟩⟩
instance : HDiv (vec3 α) α (vec3 α) := ⟨fun a k => ⟨a.x / k, a.y / k, a.z / k⟩⟩

instance : AddCommGroup (vec3 α) where
  add_assoc a b c := by ext <;> exact add_assoc _ _ _
  zero_add a := by ext <;> exact zero_add _
  add_zero a := by ext <;> exact add_zero _
  nsmul := nsmulRec
  zsmul := zsmulRec
  neg_add_cancel a := by ext <;> exact neg_add_cancel _
  add_comm a b := by ext <;> exact add_comm _ _
  sub_eq_add_neg a b := by ext <;> exact sub_eq_add_neg _ _

/-- Modelled from the spec: dot product of `vec3`. -/
def vec3.dot (a b : vec3 α) : α := a.x * b.x + a.y * b.y + a.z * b.z

/-- Modelled from the spec: cross product of `vec3`. -/
def vec3.cross (a b : vec3 α) : vec3 α :=
  ⟨a.y * b.z - a.z * b.y, a.z * b.x - a.x * b.z, a.x * b.y - a.y * b.x⟩

/-- Modelled from the spec: squared norm of `vec3`. -/
def vec3.lengthSquared (a : vec3 α) : α := a.x * a.x + a.y * a.y + a.z * a.z

/-- Modelled from the spec: norm of `vec3`. -/
def vec3.length [CMath α] (a : vec3 α) : α := CMath.sqrt a.lengthSquared

end Vec3

/-! ## CelestialBody and SolarSystem -/

/-- Modelled from the spec: `celestialbody.h` is missing; the record "Body" of
the data model (position, velocity, accumulated force, mass, radius, name,
id). -/
structure CelestialBody (α : Type) where
  position : vec3 α
  velocity : vec3 α
  force : vec3 α
  mass : α
  radius : α
  name : String
  ID : Int
deriving DecidableEq, Repr

/-- The data members of `class SolarSystem` (`solarsystem.h`, lines 40-51); the
two file streams `m_ofile` and `m_ifile` carry no simulated state and are
left out. -/
structure SolarSystem (α : Type) where
  m_bodies : List (CelestialBody α)
  m_angularMomentum : vec3 α
  m_centerOfMass : vec3 α
  m_momentum : vec3 α
  m_perihelionCoordinates : vec3 α
  m_maxDistance : α
  m_minDistance : α
  m_generalRelativity : Bool
  m_kineticEnergy : α
  m_potentialEnergy : α
deriving DecidableEq, Repr

section System

variable {α : Type} [LinearOrderedField α]

/-- Modelled from the spec: the constructor `SolarSystem::SolarSystem()` is
missing; "System is created empty", "relativity flag: boolean, off by default".
The diagnostic members, on whose initial value the spec is silent, start at
zero. -/
def SolarSystem.new : SolarSystem α where
  m_bodies := []
  m_angularMomentum := 0
  m_centerOfMass := 0
  m_momentum := 0
  m_perihelionCoordinates := 0
  m_maxDistance := 0
  m_minDistance := 0
  m_generalRelativity := false
  m_kineticEnergy := 0
  m_potentialEnergy := 0

/-- Modelled from the spec: the body of `SolarSystem::createCelestialBody`
(declared `solarsystem.h`, line 13) is missing; "Constraint: mass > 0 (reject or
fail otherwise). Appends to the ordered sequence".  The parameter order
(position, velocity, mass, radius, name, ID) is the declared one. -/
def SolarSystem.createCelestialBody (s : SolarSystem α) (position velocity : vec3 α)
    (mass radius : α) (name : String) (ID : Int) : Option (SolarSystem α) :=
  if 0 < mass then
    some { s with m_bodies := s.m_bodies ++
      [{ position := position, velocity := velocity, force := 0, mass := mass,
         radius := radius, name := name, ID := ID }] }
  else none

/-- Modelled from the spec: the body of `SolarSystem::setGeneralRelativity`
(declared `solarsystem.h`, line 27) is missing; it switches the relativity flag
on. -/
def SolarSystem.setGeneralRelativity (s : SolarSystem α) : SolarSystem α :=
  { s with m_generalRelativity := true }

/-- The accessor `SolarSystem::bodies` (`solarsystem.h`, line 37). -/
def SolarSystem.bodies (s : SolarSystem α) : List (CelestialBody α) := s.m_bodies

end System

/-! ## The scenario functions of `main.cpp`

Each scenario assigns a fresh system to the global pointer `solarSystem`; here
it returns that system.  The printing loop that ends each scenario does not
change the system and is left out. -/

section Scenarios

variable {α : Type} [LinearOrderedField α] [CMath α]

/-- The function `sunEarth` of `main.cpp`, lines 12-24. -/
def sunEarth : Option (SolarSystem α) := do
  let solarSystem : SolarSystem α := SolarSystem.new
  let solarSystem ← solarSystem.createCelestialBody ⟨0, 0, 0⟩ ⟨0, 0, 0⟩ 1.0 0.2 "sun" 1
  let solarSystem ← solarSystem.createCelestialBody ⟨1, 0, 0⟩ ⟨0, 2 * M_PI, 0⟩ 3e-6 0.1 "earth" 4
  pure solarSystem

/-- The function `sunEarthJupiter` of `main.cpp`, lines 26-39. -/
def sunEarthJupiter : Option (SolarSystem α) := do
  let solarSystem : SolarSystem α := SolarSystem.new
  let solarSystem ← solarSystem.createCelestialBody ⟨0, 0, 0⟩ ⟨0, 0, 0⟩ 1.0 0.4 "sun" 1
  let solarSystem ← solarSystem.createCelestialBody ⟨1, 0, 0⟩ ⟨0, 2 * M_PI, 0⟩ 3e-6 0.1 "earth" 4
  let solarSystem ← solarSystem.createCelestialBody ⟨5.2, 0, 0⟩ ⟨0, 2.59156, 0⟩
    (71492 / 149597871.0) 0.3 "jupiter" 7
  pure solarSystem

/-- The function `sunMercuryWithGR` of `main.cpp`, lines 41-54. -/
def sunMercuryWithGR : Option (SolarSystem α) := do
  let solarSystem : SolarSystem α := SolarSystem.new
  let solarSystem ← solarSystem.createCelestialBody ⟨0, 0, 0⟩
    ⟨0, -12.44 * 2440.0 / 149597871.0, 0⟩ 1.0 0.4 "sun" 1
  let solarSystem ← solarSystem.createCelestialBody ⟨0.3075, 0, 0⟩ ⟨0, 12.44, 0⟩
    (2440.0 / 149597871.0) 0.05 "mercury" 2
  let solarSystem := solarSystem.setGeneralRelativity
  pure solarSystem

/-- The function `sunMercuryWithoutGR` of `main.cpp`, lines 56-68. -/
def sunMercuryWithoutGR : Option (SolarSystem α) := do
  let solarSystem : SolarSystem α := SolarSystem.new
  let solarSystem ← solarSystem.createCelestialBody ⟨0, 0, 0⟩
    ⟨0, -12.44 * 2440.0 / 149597871.0, 0⟩ 1.0 0.4 "sun" 1
  let solarSystem ← solarSystem.createCelestialBody ⟨0.3075, 0, 0⟩ ⟨0, 12.44, 0⟩
    (2440.0 / 149597871.0) 0.05 "mercury" 2
  pure solarSystem

/-- The function `officialPlanetsRealistic` of `main.cpp`, lines 70-107 (the
calls that are commented out in the source are left out). -/
def officialPlanetsRealistic : Option (SolarSystem α) := do
  let solarSystem : SolarSystem α := SolarSystem.new
  let solarSystem ← solarSystem.createCelestialBody
    ⟨3.583187837707098e-03, 3.347917208376574e-03, -1.601566243263295e-04⟩
    ⟨(-1.916797473876860e-06) * 365.242199, (6.860577040555349e-06) * 365.242199, (3.852105421771686e-08) * 365.242199⟩
    1.0 ((6.955e5) / 149597871.0) "sun" 1
  let solarSystem ← solarSystem.createCelestialBody
    ⟨-1.689638050644479e-01, 2.746185253985868e-01, 3.783565039667143e-02⟩
    ⟨(-2.941090431599825e-02) * 365.242199, (-1.400673667979914e-02) * 365.242199, (1.552995718374029e-03) * 365.242199⟩
    (2440.0 / 149597871.0) ((2.4e24) / (2e30)) "mercury" 2
  let solarSystem ← solarSystem.createCelestialBody
    ⟨2.261833743605355e-02, -7.233613245242075e-01, -1.122302675795243e-02⟩
    ⟨(2.008241010304477e-02) * 365.242199, (4.625021426170730e-04) * 365.242199, (-1.152705875157388e-03) * 365.242199⟩
    (6051.893 / 149597871.0) ((4.9e24) / (2e30)) "venus" 3
  let solarSystem ← solarSystem.createCelestialBody
    ⟨9.779167444303752e-01, 2.272281606873612e-01, -1.762900112459768e-04⟩
    ⟨(-4.140900006551348e-03) * 365.242199, (1.671297229409165e-02) * 365.242199, (-6.071663121998971e-07) * 365.242199⟩
    (6378.14 / 149597871.0) 3e-6 "earth" 4
  let solarSystem ← solarSystem.createCelestialBody
    ⟨1.083484179334264, -8.630838246913118e-01, -4.481984242527660e-02⟩
    ⟨(9.286451652444910e-03) * 365.242199, (1.212119447482730e-02) * 365.242199, (2.594581334177116e-05) * 365.242199⟩
    (3394.0 / 149597871.0) ((6.6e23) / (2e30)) "mars" 6
  let solarSystem ← solarSystem.createCelestialBody
    ⟨-5.433021216987578, -3.890762583943597e-01, 1.231202671627251e-01⟩
    ⟨(4.512629769156300e-04) * 365.242199, (-7.169976033688688e-03) * 365.242199, (1.969934735867556e-05) * 365.242199⟩
    (71492 / 149597871.0) ((1.9e27) / (2e30)) "jupiter" 7
  let solarSystem ← solarSystem.createCelestialBody
    ⟨-2.313180120049030, -9.763200920369798, 2.618183143745622e-01⟩
    ⟨(5.123311296208641e-03) * 365.242199, (-1.303286396807794e-03) * 365.242199, (-1.814530920780186e-04) * 365.242199⟩
    (60268 / 149597871.0) (5.5e26 / (2e30)) "saturn" 11
  let solarSystem ← solarSystem.createCelestialBody
    ⟨1.847687170457543e01, 7.530306462979262, -2.114037101346196e-01⟩
    ⟨(-1.513092405140061e-03) * 365.242199, (3.458857885545459e-03) * 365.242199, (3.234920926043226e-05) * 365.242199⟩
    (25559 / 149597871.0) ((8.8e25) / (2e30)) "uranus" 13
  let solarSystem ← solarSystem.createCelestialBody
    ⟨2.825174937236003e01, -9.949114169366872, -4.462071175746522e-01⟩
    ⟨(1.021996736183022e-03) * 365.242199, (2.979258351346539e-03) * 365.242199, (-8.531373744879276e-05) * 365.242199⟩
    (24766 / 149597871.0) ((1.03e26) / (2e30)) "neptune" 18
  pure solarSystem

/-- The function `officialPlanetsStylized` of `main.cpp`, lines 109-137. -/
def officialPlanetsStylized : Option (SolarSystem α) := do
  let solarSystem : SolarSystem α := SolarSystem.new
  let solarSystem ← solarSystem.createCelestialBody
    ⟨3.583187837707098e-03, 3.347917208376574e-03, -1.601566243263295e-04⟩
    ⟨(-1.916797473876860e-06) * 365.242199, (6.860577040555349e-06) * 365.242199, (3.852105421771686e-08) * 365.242199⟩
    1.0 ((6.955e5) / 149597871.0) "sun" 1
  let solarSystem ← solarSystem.createCelestialBody
    ⟨-1.689638050644479e-01, 2.746185253985868e-01, 3.783565039667143e-02⟩
    ⟨(-2.941090431599825e-02) * 365.242199, (-1.400673667979914e-02) * 365.242199, (1.552995718374029e-03) * 365.242199⟩
    (2440.0 / 149597871.0) ((2.4e24) / (2e30)) "mercury" 2
  let solarSystem ← solarSystem.createCelestialBody
    ⟨2.261833743605355e-02, -7.233613245242075e-01, -1.122302675795243e-02⟩
    ⟨(2.008241010304477e-02) * 365.242199, (4.625021426170730e-04) * 365.242199, (-1.152705875157388e-03) * 365.242199⟩
    (6051.893 / 149597871.0) ((4.9e24) / (2e30)) "venus" 3
  let solarSystem ← solarSystem.createCelestialBody
    ⟨9.779167444303752e-01, 2.272281606873612e-01, -1.762900112459768e-04⟩
    ⟨(-4.140900006551348e-03) * 365.242199, (1.671297229409165e-02) * 365.242199, (-6.071663121998971e-07) * 365.242199⟩
    (6378.14 / 149597871.0) 3e-6 "earth" 4
  let solarSystem ← solarSystem.createCelestialBody
    ⟨1.083484179334264, -8.630838246913118e-01, -4.481984242527660e-02⟩
    ⟨(9.286451652444910e-03) * 365.242199, (1.212119447482730e-02) * 365.242199, (2.594581334177116e-05) * 365.242199⟩
    (3394.0 / 149597871.0) ((6.6e23) / (2e30)) "mars" 6
  let solarSystem ← solarSystem.createCelestialBody
    ⟨-5.433021216987578, -3.890762583943597e-01, 1.231202671627251e-01⟩
    ⟨(4.512629769156300e-04) * 365.242199, (-7.169976033688688e-03) * 365.242199, (1.969934735867556e-05) * 365.242199⟩
    (71492 / 149597871.0) ((1.9e27) / (2e30)) "jupiter" 7
  let solarSystem ← solarSystem.createCelestialBody
    ⟨-2.313180120049030, -9.763200920369798, 2.618183143745622e-01⟩
    ⟨(5.123311296208641e-03) * 365.242199, (-1.303286396807794e-03) * 365.242199, (-1.814530920780186e-04) * 365.242199⟩
    (60268 / 149597871.0) (5.5e26 / (2e30)) "saturn" 11
  let solarSystem ← solarSystem.createCelestialBody
    ⟨1.847687170457543e01, 7.530306462979262, -2.114037101346196e-01⟩
    ⟨(-1.513092405140061e-03) * 365.242199, (3.458857885545459e-03) * 365.242199, (3.234920926043226e-05) * 365.242199⟩
    (25559 / 149597871.0) ((8.8e25) / (2e30)) "uranus" 13
  let solarSystem ← solarSystem.createCelestialBody
    ⟨2.825174937236003e01, -9.949114169366872, -4.462071175746522e-01⟩
    ⟨(1.021996736183022e-03) * 365.242199, (2.979258351346539e-03) * 365.242199, (-8.531373744879276e-05) * 365.242199⟩
    (24766 / 149597871.0) ((1.03e26) / (2e30)) "neptune" 18
  pure solarSystem

/-- The function `sunJupiterCrash` of `main.cpp`, lines 139-152. -/
def sunJupiterCrash : Option (SolarSystem α) := do
  let solarSystem : SolarSystem α := SolarSystem.new
  let solarSystem ← solarSystem.createCelestialBody ⟨0, 0, 0⟩ ⟨0, 0, 0⟩ 1.0 0.2
    "sun crash test" 1
  let solarSystem ← solarSystem.createCelestialBody ⟨5, 0, 0⟩ ⟨-1, 0, 0⟩
    (71492 / 149597871.0) 0.1 "crashing jupiter" 25
  pure solarSystem

end Scenarios

/-! ## Member functions of `SolarSystem` -/

section Operations

variable {α : Type} [LinearOrderedField α] [CMath α]

/-- Modelled from the spec: the body of `SolarSystem::collisionDetection`
(declared `solarsystem.h`, line 21, as a `const` member taking both bodies by
value) is missing; "Returns true iff current separation ≤ sum of the two
bodies' radii. Pure, side-effect-free". -/
def SolarSystem.collisionDetection (_s : SolarSystem α) (body1 body2 : CelestialBody α) : Bool :=
  decide ((body1.position - body2.position).length ≤ body1.radius + body2.radius)

/-- Modelled from the spec: name lookup, "first match per name"; a name with
no matching body is reported (`none`). -/
def SolarSystem.findBody (s : SolarSystem α) (name : String) : Option (CelestialBody α) :=
  s.m_bodies.find? (fun body => body.name == name)

/-- Modelled from the spec: the separation that `findMaxMinDistance` computes,
"Resolves both names to bodies (first match per name), computes their current
separation". -/
def SolarSystem.separation (s : SolarSystem α) (body1Name body2Name : String) : Option α := do
  let body1 ← s.findBody body1Name
  let body2 ← s.findBody body2Name
  pure (body1.position - body2.position).length

/-- Modelled from the spec: the body of `SolarSystem::findMaxMinDistance`
(declared `solarsystem.h`, line 24) is missing; "computes their current
separation, and updates running minimum/maximum across all calls made during a
run". -/
def SolarSystem.findMaxMinDistance (s : SolarSystem α) (body1Name body2Name : String) :
    Option (SolarSystem α) := do
  let distance ← s.separation body1Name body2Name
  pure { s with m_maxDistance := max s.m_maxDistance distance,
                m_minDistance := min s.m_minDistance distance }

/-- Modelled from the spec: the body of `SolarSystem::findCoordinates`
(declared `solarsystem.h`, line 36) is missing; "Computes the relative offset of
bodyA from bodyB; if their separation ≤ thresholdDistance, overwrites the
recorded perihelion-coordinate state with that offset; otherwise state is
unchanged." -/
def SolarSystem.findCoordinates (s : SolarSystem α) (body1Name body2Name : String)
    (minDistance : α) : Option (SolarSystem α) := do
  let body1 ← s.findBody body1Name
  let body2 ← s.findBody body2Name
  let offset := body1.position - body2.position
  if offset.length ≤ minDistance then
    pure { s with m_perihelionCoordinates := offset }
  else
    pure s

/-- Modelled from the spec: the body of `SolarSystem::getPerihelionCoordinates`
(declared `solarsystem.h`, line 35) is missing; the recorded-coordinate
accessor. -/
def SolarSystem.getPerihelionCoordinates (s : SolarSystem α) : vec3 α :=
  s.m_perihelionCoordinates

/-- Modelled from the spec: `computeMomentum`, "Σ mass·velocity" over the current
bodies (the value that `setMomentum` / `getMomentum`, declared
`solarsystem.h`, lines 32-33, deal with). -/
def SolarSystem.computeMomentum (s : SolarSystem α) : vec3 α :=
  s.m_bodies.foldl (fun momentum body => momentum + body.velocity * body.mass) 0

/-- Modelled from the spec: trajectory serialisation (`writeToFile`, declared
`solarsystem.h`, line 22) reads the bodies and leaves the system as it is. -/
def SolarSystem.writeToFile (s : SolarSystem α) (_filename : String) : SolarSystem α := s

/-- Modelled from the spec: log-scaled trajectory serialisation
(`writeToFileLogarithm`, declared `solarsystem.h`, line 23) reads the bodies and
leaves the system as it is. -/
def SolarSystem.writeToFileLogarithm (s : SolarSystem α) (_filename : String) :
    SolarSystem α := s

/-- Adds `f` to the force accumulator of the body at index `i`. -/
def addForceAt : List (CelestialBody α) → Nat → vec3 α → List (CelestialBody α)
  | [], _, _ => []
  | body :: rest, 0, f => { body with force := body.force + f } :: rest
  | body :: rest, i + 1, f => body :: addForceAt rest i f

/-- Modelled from the spec: "a unit system normalized so the gravitational
constant G = 4π²". -/
def gravitationalConstant : α := 4 * M_PI * M_PI

/-- Modelled from the spec: the force that body 2 feels from the pair
(body 1 feels the opposite): Newtonian magnitude `G·m₁·m₂/r²` along the line
between the bodies; "If the relativity flag is set, scale each pairwise force
magnitude by a correction factor (1 + 3·l²/(r²·c²)), where l is the specific
orbital angular momentum magnitude of the pair and c is the speed of light".
The spec gives no number for `c`; it is a parameter. -/
def pairForce (c : α) (generalRelativity : Bool) (body1 body2 : CelestialBody α) : vec3 α :=
  let deltaRVector := body1.position - body2.position
  let dr := deltaRVector.length
  let newton := gravitationalConstant * body1.mass * body2.mass / (dr * dr)
  let magnitude :=
    if generalRelativity then
      let l := (deltaRVector.cross (body1.velocity - body2.velocity)).length
      newton * (1 + 3 * (l * l) / (dr * dr * (c * c)))
    else newton
  deltaRVector * (magnitude / dr)

/-- Modelled from the spec: the work done for one unordered pair `(i, j)`:
"Accumulate equal-and-opposite force contributions into each body's
accumulator" and add `−G·mass_i·mass_j / separation_ij` to the potential
energy. -/
def pairStep (c : α) (generalRelativity : Bool) (i j : Nat)
    (state : List (CelestialBody α) × α) : List (CelestialBody α) × α :=
  match state.1[i]?, state.1[j]? with
  | some body1, some body2 =>
    let forceVector := pairForce c generalRelativity body1 body2
    let dr := (body1.position - body2.position).length
    (addForceAt (addForceAt state.1 i (-forceVector)) j forceVector,
     state.2 - gravitationalConstant * body1.mass * body2.mass / dr)
  | _, _ => state

/-- Modelled from the spec: the loop of `calculateForcesAndEnergy` over "every
unordered pair (i, j) of bodies", `i < j`. -/
def pairLoop (c : α) (generalRelativity : Bool) (n : Nat)
    (state : List (CelestialBody α) × α) : List (CelestialBody α) × α :=
  (List.range n).foldl
    (fun state i =>
      (List.range' (i + 1) (n - (i + 1))).foldl
        (fun state j => pairStep c generalRelativity i j state) state)
    state

/-- Modelled from the spec: the body of `SolarSystem::calculateForcesAndEnergy`
(declared `solarsystem.h`, line 14) is missing; the accumulators are "zeroed at
the start of this call", then every unordered pair contributes, and "kinetic
energy = Σ ½·mass·|velocity|²". -/
def SolarSystem.calculateForcesAndEnergy (c : α) (s : SolarSystem α) : SolarSystem α :=
  let bodies := s.m_bodies.map (fun body => { body with force := 0 })
  let kineticEnergy :=
    (bodies.map (fun body => 1 / 2 * body.mass * body.velocity.lengthSquared)).sum
  let result := pairLoop c s.m_generalRelativity bodies.length (bodies, 0)
  { s with m_bodies := result.1, m_kineticEnergy := kineticEnergy,
           m_potentialEnergy := result.2 }

/-- A function of a body that does not look at the force accumulator. -/
def ForceBlind {β : Type} (g : CelestialBody α → β) : Prop :=
  ∀ (body : CelestialBody α) (f : vec3 α), g { body with force := f } = g body

end Operations

/-! ## The Verlet integrator -/

/-- Modelled from the spec: `verlet.h` is missing; the integrator's "State:
fixed timestep Δt". -/
structure Verlet (α : Type) where
  m_dt : α

section Integrator

variable {α : Type} [LinearOrderedField α] [CMath α]

/-- Modelled from the spec: "For every body: velocity ← velocity +
½·Δt·acceleration", the acceleration being the accumulated force over the
mass. -/
def Verlet.halfKick (integrator : Verlet α) (s : SolarSystem α) : SolarSystem α :=
  { s with m_bodies := s.m_bodies.map (fun body =>
      { body with velocity := body.velocity + (body.force / body.mass) * (1 / 2 * integrator.m_dt) }) }

/-- Modelled from the spec: "For every body: position ← position +
Δt·velocity". -/
def Verlet.drift (integrator : Verlet α) (s : SolarSystem α) : SolarSystem α :=
  { s with m_bodies := s.m_bodies.map (fun body =>
      { body with position := body.position + body.velocity * integrator.m_dt }) }

/-- Modelled from the spec: steps 1 to 3 of the velocity-Verlet step, up to and
including the position update. -/
def Verlet.positionUpdate (integrator : Verlet α) (c : α) (s : SolarSystem α) : SolarSystem α :=
  integrator.drift (integrator.halfKick (s.calculateForcesAndEnergy c))

/-- Modelled from the spec: the body of `Verlet::integrateOneStep` is missing;
the five steps of "Velocity-Verlet (leapfrog)": evaluate the forces, half
kick, position update, evaluate the forces at the new positions, half
kick. -/
def Verlet.integrateOneStep (integrator : Verlet α) (c : α) (s : SolarSystem α) :
    SolarSystem α :=
  integrator.halfKick ((integrator.positionUpdate c s).calculateForcesAndEnergy c)

/-- The bodies of the system sit at pairwise distinct positions. -/
def SolarSystem.distinctPositions (s : SolarSystem α) : Prop :=
  s.m_bodies.Pairwise (fun body1 body2 => body1.position ≠ body2.position)

end Integrator

/-! ## `runVerlet` and `main` -/

section Driver

variable {α : Type} [LinearOrderedField α] [CMath α]

/-- The local `numTimesteps` of `runVerlet` (`main.cpp`, line 165). -/
def runVerlet.numTimesteps : Nat := 630000

/-- The local `dt` of `runVerlet` (`main.cpp`, line 166). -/
def runVerlet.dt : α := 0.001

/-- The local `writeLogarithm` of `runVerlet` (`main.cpp`, line 166). -/
def runVerlet.writeLogarithm : Bool := false

/-- The local `findD` of `runVerlet` (`main.cpp`, line 166). -/
def runVerlet.findD : Bool := true

/-- The local `body1` of `runVerlet` (`main.cpp`, line 167). -/
def runVerlet.body1 : String := "sun"

/-- The local `body2` of `runVerlet` (`main.cpp`, line 167). -/
def runVerlet.body2 : String := "mercury"

/-- The local `integrator` of `runVerlet` (`main.cpp`, line 168). -/
def runVerlet.integrator : Verlet α := ⟨runVerlet.dt⟩

/-- The body of the `for` loop of `runVerlet` (`main.cpp`, lines 170-181) at the
step `timestep`.  The comparison `timestep == (int)numTimesteps*0.90` is done
in `double`, both sides converted. -/
def runVerlet.loopBody (c : α) (timestep : Nat) (solarSystem : SolarSystem α) :
    Option (SolarSystem α) := do
  let solarSystem := runVerlet.integrator.integrateOneStep c solarSystem
  let solarSystem ←
    if runVerlet.findD then do
      let solarSystem ← solarSystem.findMaxMinDistance runVerlet.body1 runVerlet.body1
      if (timestep : α) = (runVerlet.numTimesteps : α) * 0.90 then
        solarSystem.findCoordinates runVerlet.body1 runVerlet.body2 0.3075
      else
        pure solarSystem
    else
      pure solarSystem
  if runVerlet.writeLogarithm then
    pure (solarSystem.writeToFileLogarithm "positions.xyz")
  else
    pure (solarSystem.writeToFile "positions.xyz")

/-- The first `k` rounds of the `for` loop of `runVerlet` (`main.cpp`, line 169):
the steps with index `0, …, k - 1`. -/
def runVerlet.loop (c : α) : Nat → SolarSystem α → Option (SolarSystem α)
  | 0, solarSystem => some solarSystem
  | k + 1, solarSystem => do
    let solarSystem ← runVerlet.loop c k solarSystem
    runVerlet.loopBody c k solarSystem

/-- The value `years` that `runVerlet` prints (`main.cpp`, line 183). -/
def runVerlet.years : α := ((runVerlet.numTimesteps : α) * runVerlet.dt) / (2 * M_PI)

/-- The function `runVerlet` of `main.cpp`, lines 164-191: the system after the
loop and the number of years printed. -/
def runVerlet (c : α) (solarSystem : SolarSystem α) : Option (SolarSystem α × α) := do
  let solarSystem ← runVerlet.loop c runVerlet.numTimesteps solarSystem
  pure (solarSystem, runVerlet.years)

/-- The angle `theta` that `main` prints for a recorded perihelion coordinate
(`main.cpp`, lines 214 and 233). -/
def main.theta (periCoord : vec3 α) : α := CMath.tan (periCoord.y / periCoord.x) * 3600

end Driver

/-! ## Lemmas on `vec3` -/

section VecLemmas

variable {α : Type} [LinearOrderedField α]

@[simp] theorem vec3.zero_x : (0 : vec3 α).x = 0 := rfl
@[simp] theorem vec3.zero_y : (0 : vec3 α).y = 0 := rfl
@[simp] theorem vec3.zero_z : (0 : vec3 α).z = 0 := rfl
@[simp] theorem vec3.add_x (a b : vec3 α) : (a + b).x = a.x + b.x := rfl
@[simp] theorem vec3.add_y (a b : vec3 α) : (a + b).y = a.y + b.y := rfl
@[simp] theorem vec3.add_z (a b : vec3 α) : (a + b).z = a.z + b.z := rfl
@[simp] theorem vec3.neg_x (a : vec3 α) : (-a).x = -a.x := rfl
@[simp] theorem vec3.neg_y (a : vec3 α) : (-a).y = -a.y := rfl
@[simp] theorem vec3.neg_z (a : vec3 α) : (-a).z = -a.z := rfl
@[simp] theorem vec3.sub_x (a b : vec3 α) : (a - b).x = a.x - b.x := rfl
@[simp] theorem vec3.sub_y (a b : vec3 α) : (a - b).y = a.y - b.y := rfl
@[simp] theorem vec3.sub_z (a b : vec3 α) : (a - b).z = a.z - b.z := rfl
@[simp] theorem vec3.mul_x (a : vec3 α) (k : α) : (a * k).x = a.x * k := rfl
@[simp] theorem vec3.mul_y (a : vec3 α) (k : α) : (a * k).y = a.y * k := rfl
@[simp] theorem vec3.mul_z (a : vec3 α) (k : α) : (a * k).z = a.z * k := rfl
@[simp] theorem vec3.div_x (a : vec3 α) (k : α) : (a / k).x = a.x / k := rfl
@[simp] theorem vec3.div_y (a : vec3 α) (k : α) : (a / k).y = a.y / k := rfl
@[simp] theorem vec3.div_z (a : vec3 α) (k : α) : (a / k).z = a.z / k := rfl

/-- Scaling distributes over a sum of vectors. -/
theorem vec3.sum_mul (l : List (vec3 α)) (k : α) :
    l.sum * k = (l.map (fun v : vec3 α => (v * k : vec3 α))).sum := by
  induction l with
  | nil => ext <;> simp
  | cons v l ih =>
    rw [List.sum_cons, List.map_cons, List.sum_cons, ← ih]
    ext <;> simp [add_mul]

end VecLemmas

/-! ## Lemmas on the force evaluation -/

section ForceLemmas

variable {α : Type} [LinearOrderedField α] [CMath α]

omit [CMath α] in
/-- The value of `computeMomentum` is the sum of `velocity * mass` over the bodies. -/
theorem computeMomentum_eq_sum (s : SolarSystem α) :
    s.computeMomentum = (s.m_bodies.map (fun body => body.velocity * body.mass)).sum := by
  unfold SolarSystem.computeMomentum
  rw [List.sum_eq_foldl, List.foldl_map]

omit [CMath α] in
/-- Adding to one accumulator keeps the number of bodies. -/
theorem addForceAt_length (bodies : List (CelestialBody α)) (i : Nat) (f : vec3 α) :
    (addForceAt bodies i f).length = bodies.length := by
  induction bodies generalizing i with
  | nil => rfl
  | cons body rest ih => cases i <;> simp [addForceAt, ih]

omit [CMath α] in
/-- Adding to one accumulator changes nothing that a force-blind function sees. -/
theorem addForceAt_map {β : Type} (g : CelestialBody α → β) (hg : ForceBlind g)
    (bodies : List (CelestialBody α)) (i : Nat) (f : vec3 α) :
    (addForceAt bodies i f).map g = bodies.map g := by
  induction bodies generalizing i with
  | nil => rfl
  | cons body rest ih =>
    cases i with
    | zero => simp [addForceAt, hg body]
    | succ i => simp [addForceAt, ih]

omit [CMath α] in
/-- Adding `f` to the accumulator of an existing body adds `f` to the total force. -/
theorem addForceAt_sum (bodies : List (CelestialBody α)) (i : Nat) (f : vec3 α)
    (hi : i < bodies.length) :
    ((addForceAt bodies i f).map (fun body => body.force)).sum =
      (bodies.map (fun body => body.force)).sum + f := by
  induction bodies generalizing i with
  | nil => simp at hi
  | cons body rest ih =>
    cases i with
    | zero => simp [addForceAt]; abel
    | succ i =>
      have hi' : i < rest.length := by simpa using hi
      simp [addForceAt, ih i hi']; abel

/-- The work for one pair changes nothing that a force-blind function sees. -/
theorem pairStep_map {β : Type} (g : CelestialBody α → β) (hg : ForceBlind g) (c : α)
    (gr : Bool) (i j : Nat) (state : List (CelestialBody α) × α) :
    (pairStep c gr i j state).1.map g = state.1.map g := by
  unfold pairStep
  split
  · simp [addForceAt_map g hg]
  · rfl

/-- The work for one pair keeps the total force: the two contributions cancel. -/
theorem pairStep_sum (c : α) (gr : Bool) (i j : Nat) (state : List (CelestialBody α) × α) :
    ((pairStep c gr i j state).1.map (fun body => body.force)).sum =
      (state.1.map (fun body => body.force)).sum := by
  unfold pairStep
  split
  · next body1 body2 h1 h2 =>
    have hi : i < state.1.length := (List.getElem?_eq_some.mp h1).1
    have hj : j < state.1.length := (List.getElem?_eq_some.mp h2).1
    simp only
    rw [addForceAt_sum _ _ _ (by rw [addForceAt_length]; exact hj), addForceAt_sum _ _ _ hi]
    abel
  · rfl

omit [CMath α] in
/-- An invariant of the step function is an invariant of a fold. -/
theorem foldl_invariant {σ ι : Type} (P : σ → Prop) (f : σ → ι → σ)
    (hf : ∀ st x, P st → P (f st x)) (l : List ι) (init : σ) (h : P init) :
    P (l.foldl f init) := by
  induction l generalizing init with
  | nil => exact h
  | cons x l ih => exact ih _ (hf _ _ h)

/-- The loop over the pairs changes nothing that a force-blind function sees. -/
theorem pairLoop_map {β : Type} (g : CelestialBody α → β) (hg : ForceBlind g) (c : α)
    (gr : Bool) (n : Nat) (state : List (CelestialBody α) × α) :
    (pairLoop c gr n state).1.map g = state.1.map g := by
  unfold pairLoop
  refine foldl_invariant (fun st : List (CelestialBody α) × α => st.1.map g = state.1.map g) _ ?_ _ _ rfl
  intro st i hst
  refine foldl_invariant (fun st : List (CelestialBody α) × α => st.1.map g = state.1.map g) _ ?_ _ _ hst
  intro st j hst
  rw [pairStep_map g hg, hst]

/-- The loop over the pairs keeps the total force. -/
theorem pairLoop_sum (c : α) (gr : Bool) (n : Nat) (state : List (CelestialBody α) × α) :
    ((pairLoop c gr n state).1.map (fun body => body.force)).sum =
      (state.1.map (fun body => body.force)).sum := by
  unfold pairLoop
  refine foldl_invariant
    (fun st : List (CelestialBody α) × α => (st.1.map (fun body => body.force)).sum =
      (state.1.map (fun body => body.force)).sum) _ ?_ _ _ rfl
  intro st i hst
  refine foldl_invariant
    (fun st : List (CelestialBody α) × α => (st.1.map (fun body => body.force)).sum =
      (state.1.map (fun body => body.force)).sum) _ ?_ _ _ hst
  intro st j hst
  rw [pairStep_sum, hst]

/-- The force evaluation changes nothing that a force-blind function sees. -/
theorem calculateForcesAndEnergy_map {β : Type} (g : CelestialBody α → β) (hg : ForceBlind g)
    (c : α) (s : SolarSystem α) :
    (s.calculateForcesAndEnergy c).m_bodies.map g = s.m_bodies.map g := by
  unfold SolarSystem.calculateForcesAndEnergy
  simp only [pairLoop_map g hg, List.map_map]
  apply List.map_congr_left
  intro body _
  exact hg body 0

/-- After the force evaluation the accumulated forces add up to zero. -/
theorem calculateForcesAndEnergy_sum (c : α) (s : SolarSystem α) :
    ((s.calculateForcesAndEnergy c).m_bodies.map (fun body => body.force)).sum = 0 := by
  unfold SolarSystem.calculateForcesAndEnergy
  simp only [pairLoop_sum, List.map_map]
  induction s.m_bodies with
  | nil => rfl
  | cons body rest ih => simp [ih]

end ForceLemmas

/-! ## Lemmas on the integrator -/

section IntegratorLemmas

variable {α : Type} [LinearOrderedField α] [CMath α]

omit [LinearOrderedField α] [CMath α] in
/-- The mass is force-blind. -/
theorem forceBlind_mass : ForceBlind (fun body : CelestialBody α => body.mass) :=
  fun _ _ => rfl

omit [LinearOrderedField α] [CMath α] in
/-- The name is force-blind. -/
theorem forceBlind_name : ForceBlind (fun body : CelestialBody α => body.name) :=
  fun _ _ => rfl

omit [CMath α] in
/-- The momentum of a body is force-blind. -/
theorem forceBlind_momentum :
    ForceBlind (fun body : CelestialBody α => (body.velocity * body.mass : vec3 α)) :=
  fun _ _ => rfl

/-- The force evaluation keeps the total momentum. -/
theorem calculateForcesAndEnergy_momentum (c : α) (s : SolarSystem α) :
    (s.calculateForcesAndEnergy c).computeMomentum = s.computeMomentum := by
  rw [computeMomentum_eq_sum, computeMomentum_eq_sum,
    calculateForcesAndEnergy_map _ forceBlind_momentum]

omit [CMath α] in
/-- The position update keeps the total momentum. -/
theorem drift_momentum (integrator : Verlet α) (s : SolarSystem α) :
    (integrator.drift s).computeMomentum = s.computeMomentum := by
  rw [computeMomentum_eq_sum, computeMomentum_eq_sum]
  simp [Verlet.drift, Function.comp_def]

omit [CMath α] in
/-- A half kick adds half a timestep of the total force to the momentum. -/
theorem halfKick_momentum (integrator : Verlet α) (s : SolarSystem α)
    (hmass : ∀ body ∈ s.m_bodies, body.mass ≠ 0) :
    (integrator.halfKick s).computeMomentum =
      s.computeMomentum +
        (s.m_bodies.map (fun body => body.force)).sum * (1 / 2 * integrator.m_dt) := by
  rw [computeMomentum_eq_sum, computeMomentum_eq_sum, vec3.sum_mul]
  simp only [Verlet.halfKick, List.map_map, Function.comp_def]
  revert hmass
  generalize s.m_bodies = bodies
  intro hmass
  induction bodies with
  | nil => simp
  | cons body rest ih =>
    have hb : body.mass ≠ 0 := hmass body (List.mem_cons_self _ _)
    have hrest := ih (fun b hbmem => hmass b (List.mem_cons_of_mem _ hbmem))
    simp only [List.map_cons, List.sum_cons, hrest]
    have hbody : ((body.velocity + body.force / body.mass * (1 / 2 * integrator.m_dt)) * body.mass
        : vec3 α) = body.velocity * body.mass + body.force * (1 / 2 * integrator.m_dt) := by
      ext <;> simp <;> field_simp <;> ring
    rw [hbody]
    abel

omit [CMath α] in
/-- A half kick keeps the masses. -/
theorem halfKick_mass (integrator : Verlet α) (s : SolarSystem α) :
    (integrator.halfKick s).m_bodies.map (fun body => body.mass) =
      s.m_bodies.map (fun body => body.mass) := by
  simp [Verlet.halfKick, Function.comp_def]

omit [CMath α] in
/-- The position update keeps the masses. -/
theorem drift_mass (integrator : Verlet α) (s : SolarSystem α) :
    (integrator.drift s).m_bodies.map (fun body => body.mass) =
      s.m_bodies.map (fun body => body.mass) := by
  simp [Verlet.drift, Function.comp_def]

omit [CMath α] in
/-- A half kick keeps the names. -/
theorem halfKick_name (integrator : Verlet α) (s : SolarSystem α) :
    (integrator.halfKick s).m_bodies.map (fun body => body.name) =
      s.m_bodies.map (fun body => body.name) := by
  simp [Verlet.halfKick, Function.comp_def]

omit [CMath α] in
/-- The position update keeps the names. -/
theorem drift_name (integrator : Verlet α) (s : SolarSystem α) :
    (integrator.drift s).m_bodies.map (fun body => body.name) =
      s.m_bodies.map (fun body => body.name) := by
  simp [Verlet.drift, Function.comp_def]

/-- A Verlet step keeps the masses. -/
theorem integrateOneStep_mass (integrator : Verlet α) (c : α) (s : SolarSystem α) :
    (integrator.integrateOneStep c s).m_bodies.map (fun body => body.mass) =
      s.m_bodies.map (fun body => body.mass) := by
  unfold Verlet.integrateOneStep Verlet.positionUpdate
  rw [halfKick_mass, calculateForcesAndEnergy_map _ forceBlind_mass, drift_mass, halfKick_mass,
    calculateForcesAndEnergy_map _ forceBlind_mass]

/-- A Verlet step keeps the names. -/
theorem integrateOneStep_name (integrator : Verlet α) (c : α) (s : SolarSystem α) :
    (integrator.integrateOneStep c s).m_bodies.map (fun body => body.name) =
      s.m_bodies.map (fun body => body.name) := by
  unfold Verlet.integrateOneStep Verlet.positionUpdate
  rw [halfKick_name, calculateForcesAndEnergy_map _ forceBlind_name, drift_name, halfKick_name,
    calculateForcesAndEnergy_map _ forceBlind_name]

omit [CMath α] in
/-- A property of the masses carries over between systems with the same masses. -/
theorem mass_ne_zero_of_map_eq {bodies bodies' : List (CelestialBody α)}
    (h : bodies'.map (fun body => body.mass) = bodies.map (fun body => body.mass))
    (hmass : ∀ body ∈ bodies, 0 < body.mass) : ∀ body ∈ bodies', 0 < body.mass := by
  intro body hbody
  have hmem : body.mass ∈ bodies'.map (fun body => body.mass) := List.mem_map_of_mem _ hbody
  rw [h] at hmem
  obtain ⟨body0, hbody0, heq⟩ := List.mem_map.mp hmem
  rw [← heq]
  exact hmass body0 hbody0

/-- One Verlet step leaves the total momentum as it is when no mass is zero. -/
theorem integrateOneStep_momentum (integrator : Verlet α) (c : α) (s : SolarSystem α)
    (hmass : ∀ body ∈ s.m_bodies, 0 < body.mass) :
    (integrator.integrateOneStep c s).computeMomentum = s.computeMomentum := by
  have h1 : ∀ body ∈ (s.calculateForcesAndEnergy c).m_bodies, body.mass ≠ 0 := fun body hb =>
    ne_of_gt (mass_ne_zero_of_map_eq (calculateForcesAndEnergy_map _ forceBlind_mass c s)
      hmass body hb)
  have h2 : ∀ body ∈ ((integrator.positionUpdate c s).calculateForcesAndEnergy c).m_bodies,
      body.mass ≠ 0 := fun body hb =>
    ne_of_gt (mass_ne_zero_of_map_eq
      (by
        unfold Verlet.positionUpdate
        rw [calculateForcesAndEnergy_map _ forceBlind_mass, drift_mass, halfKick_mass,
          calculateForcesAndEnergy_map _ forceBlind_mass])
      hmass body hb)
  unfold Verlet.integrateOneStep
  rw [halfKick_momentum _ _ h2, calculateForcesAndEnergy_sum, calculateForcesAndEnergy_momentum]
  unfold Verlet.positionUpdate
  rw [drift_momentum, halfKick_momentum _ _ h1, calculateForcesAndEnergy_sum,
    calculateForcesAndEnergy_momentum]
  ext <;> simp

end IntegratorLemmas

/-! ## Lemmas on the loop of `runVerlet` -/

section LoopLemmas

variable {α : Type} [LinearOrderedField α] [CMath α]

omit [CMath α] in
/-- The test `timestep == (int)numTimesteps*0.90` holds at step 567000 only. -/
theorem timestep_test_iff (timestep : Nat) :
    (timestep : α) = (runVerlet.numTimesteps : α) * 0.90 ↔ timestep = 567000 := by
  have h : (runVerlet.numTimesteps : α) * 0.90 = ((567000 : Nat) : α) := by
    simp only [runVerlet.numTimesteps]; norm_num
  rw [h, Nat.cast_inj]

/-- Away from step 567000 the loop body is a Verlet step followed by
`findMaxMinDistance`. -/
theorem loopBody_of_ne (c : α) (timestep : Nat) (s : SolarSystem α) (h : timestep ≠ 567000) :
    runVerlet.loopBody c timestep s =
      (runVerlet.integrator.integrateOneStep c s).findMaxMinDistance "sun" "sun" := by
  have h' : ¬ (timestep : α) = (runVerlet.numTimesteps : α) * 0.90 :=
    fun hc => h ((timestep_test_iff timestep).mp hc)
  simp [runVerlet.loopBody, runVerlet.findD, runVerlet.writeLogarithm, runVerlet.body1,
    SolarSystem.writeToFile, h']

/-- At step 567000 the loop body is a Verlet step followed by `findMaxMinDistance` and
`findCoordinates`. -/
theorem loopBody_of_eq (c : α) (s : SolarSystem α) :
    runVerlet.loopBody c 567000 s =
      ((runVerlet.integrator.integrateOneStep c s).findMaxMinDistance "sun" "sun").bind
        (fun s' => s'.findCoordinates "sun" "mercury" 0.3075) := by
  have h' : (567000 : α) = (runVerlet.numTimesteps : α) * 0.90 := by
    simp only [runVerlet.numTimesteps]; norm_num
  simp [runVerlet.loopBody, runVerlet.findD, runVerlet.writeLogarithm, runVerlet.body1,
    runVerlet.body2, SolarSystem.writeToFile, h']

omit [LinearOrderedField α] [CMath α] in
/-- A name that occurs among the bodies is resolved. -/
theorem findBody_of_mem (s : SolarSystem α) (name : String)
    (h : name ∈ s.m_bodies.map (fun body => body.name)) :
    ∃ body, s.findBody name = some body ∧ body ∈ s.m_bodies := by
  obtain ⟨body0, hmem, hname⟩ := List.mem_map.mp h
  unfold SolarSystem.findBody
  cases hfind : s.m_bodies.find? (fun body => body.name == name) with
  | none =>
    rw [List.find?_eq_none] at hfind
    exact absurd (by simpa using hname) (hfind body0 hmem)
  | some body => exact ⟨body, rfl, List.mem_of_find?_eq_some hfind⟩

/-- When both names occur among the bodies, `findMaxMinDistance` succeeds and changes the
two extremes only. -/
theorem findMaxMinDistance_of_mem (s : SolarSystem α) (name1 name2 : String)
    (h1 : name1 ∈ s.m_bodies.map (fun body => body.name))
    (h2 : name2 ∈ s.m_bodies.map (fun body => body.name)) :
    ∃ distance, s.separation name1 name2 = some distance ∧
      s.findMaxMinDistance name1 name2 =
        some { s with m_maxDistance := max s.m_maxDistance distance,
                      m_minDistance := min s.m_minDistance distance } := by
  obtain ⟨body1, hb1, _⟩ := findBody_of_mem s name1 h1
  obtain ⟨body2, hb2, _⟩ := findBody_of_mem s name2 h2
  refine ⟨(body1.position - body2.position).length, ?_, ?_⟩
  · simp [SolarSystem.separation, hb1, hb2]
  · simp [SolarSystem.findMaxMinDistance, SolarSystem.separation, hb1, hb2]

/-- When both names occur among the bodies, `findCoordinates` succeeds; it changes the
recorded perihelion coordinate at most. -/
theorem findCoordinates_of_mem (s : SolarSystem α) (name1 name2 : String) (minDistance : α)
    (h1 : name1 ∈ s.m_bodies.map (fun body => body.name))
    (h2 : name2 ∈ s.m_bodies.map (fun body => body.name)) :
    ∃ coordinates, s.findCoordinates name1 name2 minDistance =
      some { s with m_perihelionCoordinates := coordinates } := by
  obtain ⟨body1, hb1, _⟩ := findBody_of_mem s name1 h1
  obtain ⟨body2, hb2, _⟩ := findBody_of_mem s name2 h2
  by_cases hle : (body1.position - body2.position).length ≤ minDistance
  · exact ⟨body1.position - body2.position, by simp [SolarSystem.findCoordinates, hb1, hb2, hle]⟩
  · exact ⟨s.m_perihelionCoordinates, by simp [SolarSystem.findCoordinates, hb1, hb2, hle]⟩

/-- A call of `findMaxMinDistance` that succeeds changes the two extremes only. -/
theorem findMaxMinDistance_some (s s' : SolarSystem α) (name1 name2 : String)
    (h : s.findMaxMinDistance name1 name2 = some s') :
    ∃ distance, s.separation name1 name2 = some distance ∧
      s' = { s with m_maxDistance := max s.m_maxDistance distance,
                    m_minDistance := min s.m_minDistance distance } := by
  unfold SolarSystem.findMaxMinDistance at h
  cases hsep : s.separation name1 name2 with
  | none => simp [hsep] at h
  | some distance =>
    refine ⟨distance, rfl, ?_⟩
    simp [hsep] at h
    exact h.symm

/-- A call of `findCoordinates` that succeeds changes the recorded perihelion coordinate at
most. -/
theorem findCoordinates_some (s s' : SolarSystem α) (name1 name2 : String) (minDistance : α)
    (h : s.findCoordinates name1 name2 minDistance = some s') :
    ∃ coordinates, s' = { s with m_perihelionCoordinates := coordinates } := by
  unfold SolarSystem.findCoordinates at h
  cases hb1 : s.findBody name1 with
  | none => simp [hb1] at h
  | some body1 =>
    cases hb2 : s.findBody name2 with
    | none => simp [hb1, hb2] at h
    | some body2 =>
      simp only [hb1, hb2, Option.bind_eq_bind, Option.some_bind] at h
      split at h
      · exact ⟨_, by simpa using h.symm⟩
      · exact ⟨s.m_perihelionCoordinates, by simpa using h.symm⟩

/-- What a completed round of the loop has done to the system. -/
theorem loopBody_some (c : α) (timestep : Nat) (s s' : SolarSystem α)
    (h : runVerlet.loopBody c timestep s = some s') :
    s'.m_bodies = (runVerlet.integrator.integrateOneStep c s).m_bodies ∧
      (∃ distance,
        (runVerlet.integrator.integrateOneStep c s).separation "sun" "sun" = some distance ∧
        s'.m_maxDistance = max s.m_maxDistance distance ∧
        s'.m_minDistance = min s.m_minDistance distance) ∧
      (timestep ≠ 567000 → s'.m_perihelionCoordinates = s.m_perihelionCoordinates) := by
  by_cases ht : timestep = 567000
  · subst ht
    rw [loopBody_of_eq] at h
    obtain ⟨s1, h1, h2⟩ := Option.bind_eq_some.mp h
    obtain ⟨distance, hsep, hs1⟩ := findMaxMinDistance_some _ _ _ _ h1
    obtain ⟨coordinates, hs'⟩ := findCoordinates_some _ _ _ _ _ h2
    subst hs' hs1
    exact ⟨rfl, ⟨distance, hsep, rfl, rfl⟩, fun hne => absurd rfl hne⟩
  · rw [loopBody_of_ne c timestep s ht] at h
    obtain ⟨distance, hsep, hs1⟩ := findMaxMinDistance_some _ _ _ _ h
    subst hs1
    exact ⟨rfl, ⟨distance, hsep, rfl, rfl⟩, fun _ => rfl⟩

/-- A round of the loop completes when the system has bodies named "sun" and
"mercury". -/
theorem loopBody_isSome (c : α) (timestep : Nat) (s : SolarSystem α)
    (hsun : "sun" ∈ s.m_bodies.map (fun body => body.name))
    (hmercury : "mercury" ∈ s.m_bodies.map (fun body => body.name)) :
    ∃ s', runVerlet.loopBody c timestep s = some s' := by
  have hsun' : "sun" ∈ (runVerlet.integrator.integrateOneStep c s).m_bodies.map
      (fun body => body.name) := by rw [integrateOneStep_name]; exact hsun
  have hmercury' : "mercury" ∈ (runVerlet.integrator.integrateOneStep c s).m_bodies.map
      (fun body => body.name) := by rw [integrateOneStep_name]; exact hmercury
  obtain ⟨distance, _, h1⟩ := findMaxMinDistance_of_mem _ _ _ hsun' hsun'
  by_cases ht : timestep = 567000
  · subst ht
    rw [loopBody_of_eq, h1]
    obtain ⟨coordinates, h2⟩ := findCoordinates_of_mem
      ({ runVerlet.integrator.integrateOneStep c s with
          m_maxDistance := max (runVerlet.integrator.integrateOneStep c s).m_maxDistance distance,
          m_minDistance := min (runVerlet.integrator.integrateOneStep c s).m_minDistance distance })
      "sun" "mercury" 0.3075 hsun' hmercury'
    exact ⟨_, h2⟩
  · rw [loopBody_of_ne c timestep s ht, h1]
    exact ⟨_, rfl⟩

/-- The rounds of the loop keep the names and the masses of the bodies. -/
theorem loop_some_names (c : α) (k : Nat) (s s' : SolarSystem α)
    (h : runVerlet.loop c k s = some s') :
    s'.m_bodies.map (fun body => body.name) = s.m_bodies.map (fun body => body.name) ∧
      s'.m_bodies.map (fun body => body.mass) = s.m_bodies.map (fun body => body.mass) := by
  induction k generalizing s' with
  | zero =>
    simp only [runVerlet.loop, Option.some.injEq] at h
    subst h
    exact ⟨rfl, rfl⟩
  | succ k ih =>
    simp only [runVerlet.loop] at h
    obtain ⟨s1, h1, h2⟩ := Option.bind_eq_some.mp h
    obtain ⟨hn, hm⟩ := ih s1 h1
    have hb := (loopBody_some c k s1 s' h2).1
    rw [hb, integrateOneStep_name, integrateOneStep_mass]
    exact ⟨hn, hm⟩

/-- The loop runs to the end when the system has bodies named "sun" and "mercury". -/
theorem loop_isSome (c : α) (k : Nat) (s : SolarSystem α)
    (hsun : "sun" ∈ s.m_bodies.map (fun body => body.name))
    (hmercury : "mercury" ∈ s.m_bodies.map (fun body => body.name)) :
    ∃ s', runVerlet.loop c k s = some s' := by
  induction k with
  | zero => exact ⟨s, rfl⟩
  | succ k ih =>
    obtain ⟨s1, h1⟩ := ih
    have hn := (loop_some_names c k s s1 h1).1
    obtain ⟨s2, h2⟩ := loopBody_isSome c k s1 (by rw [hn]; exact hsun) (by rw [hn]; exact hmercury)
    exact ⟨s2, by simp [runVerlet.loop, h1, h2]⟩

/-- The rounds of the loop keep the total momentum when every mass is positive. -/
theorem loop_some_momentum (c : α) (k : Nat) (s s' : SolarSystem α)
    (hmass : ∀ body ∈ s.m_bodies, 0 < body.mass)
    (h : runVerlet.loop c k s = some s') : s'.computeMomentum = s.computeMomentum := by
  induction k generalizing s' with
  | zero =>
    simp only [runVerlet.loop, Option.some.injEq] at h
    subst h
    rfl
  | succ k ih =>
    simp only [runVerlet.loop] at h
    obtain ⟨s1, h1, h2⟩ := Option.bind_eq_some.mp h
    have hmass1 : ∀ body ∈ s1.m_bodies, 0 < body.mass :=
      mass_ne_zero_of_map_eq (loop_some_names c k s s1 h1).2 hmass
    have hb := (loopBody_some c k s1 s' h2).1
    rw [computeMomentum_eq_sum, hb, ← computeMomentum_eq_sum,
      integrateOneStep_momentum _ _ _ hmass1]
    exact ih s1 h1

/-- Up to and including step 566999 the recorded perihelion coordinate is the initial
one. -/
theorem loop_some_perihelion_before (c : α) (k : Nat) (s s' : SolarSystem α) (hk : k ≤ 567000)
    (h : runVerlet.loop c k s = some s') :
    s'.m_perihelionCoordinates = s.m_perihelionCoordinates := by
  induction k generalizing s' with
  | zero =>
    simp only [runVerlet.loop, Option.some.injEq] at h
    subst h
    rfl
  | succ k ih =>
    simp only [runVerlet.loop] at h
    obtain ⟨s1, h1, h2⟩ := Option.bind_eq_some.mp h
    rw [(loopBody_some c k s1 s' h2).2.2 (by omega)]
    exact ih s1 (by omega) h1

/-- From step 567001 on the recorded perihelion coordinate is the one left by step
567000. -/
theorem loop_some_perihelion_after (c : α) (k : Nat) (s s1 s' : SolarSystem α)
    (hk : 567000 < k) (h1 : runVerlet.loop c 567001 s = some s1)
    (h : runVerlet.loop c k s = some s') :
    s'.m_perihelionCoordinates = s1.m_perihelionCoordinates := by
  induction k generalizing s' with
  | zero => omega
  | succ k ih =>
    by_cases hk' : k = 567000
    · subst hk'
      rw [h1] at h
      rw [Option.some.inj h]
    · simp only [runVerlet.loop] at h
      obtain ⟨s2, h2, h3⟩ := Option.bind_eq_some.mp h
      rw [(loopBody_some c k s2 s' h3).2.2 hk']
      exact ih s2 (by omega) h2

end LoopLemmas

/-! ## The scenarios evaluated -/

section ScenarioLemmas

variable {α : Type} [LinearOrderedField α]

/-- The system that `sunMercuryWithoutGR` builds. -/
theorem sunMercuryWithoutGR_eq :
    sunMercuryWithoutGR (α := α) = some { (SolarSystem.new : SolarSystem α) with
      m_bodies :=
        [{ position := ⟨0, 0, 0⟩, velocity := ⟨0, -12.44 * 2440.0 / 149597871.0, 0⟩,
           force := 0, mass := 1.0, radius := 0.4, name := "sun", ID := 1 },
         { position := ⟨0.3075, 0, 0⟩, velocity := ⟨0, 12.44, 0⟩, force := 0,
           mass := 2440.0 / 149597871.0, radius := 0.05, name := "mercury", ID := 2 }] } := by
  unfold sunMercuryWithoutGR
  simp only [SolarSystem.createCelestialBody, SolarSystem.new]
  norm_num

/-- The system that `sunMercuryWithGR` builds. -/
theorem sunMercuryWithGR_eq :
    sunMercuryWithGR (α := α) = some { (SolarSystem.new : SolarSystem α) with
      m_bodies :=
        [{ position := ⟨0, 0, 0⟩, velocity := ⟨0, -12.44 * 2440.0 / 149597871.0, 0⟩,
           force := 0, mass := 1.0, radius := 0.4, name := "sun", ID := 1 },
         { position := ⟨0.3075, 0, 0⟩, velocity := ⟨0, 12.44, 0⟩, force := 0,
           mass := 2440.0 / 149597871.0, radius := 0.05, name := "mercury", ID := 2 }],
      m_generalRelativity := true } := by
  unfold sunMercuryWithGR
  simp only [SolarSystem.createCelestialBody, SolarSystem.new, SolarSystem.setGeneralRelativity]
  norm_num

/-- The system that `sunJupiterCrash` builds. -/
theorem sunJupiterCrash_eq :
    sunJupiterCrash (α := α) = some { (SolarSystem.new : SolarSystem α) with
      m_bodies :=
        [{ position := ⟨0, 0, 0⟩, velocity := ⟨0, 0, 0⟩, force := 0, mass := 1.0,
           radius := 0.2, name := "sun crash test", ID := 1 },
         { position := ⟨5, 0, 0⟩, velocity := ⟨-1, 0, 0⟩, force := 0,
           mass := 71492 / 149597871.0, radius := 0.1, name := "crashing jupiter",
           ID := 25 }] } := by
  unfold sunJupiterCrash
  simp only [SolarSystem.createCelestialBody, SolarSystem.new]
  norm_num

/-- The system that `sunEarth` builds. -/
theorem sunEarth_eq [CMath α] :
    sunEarth (α := α) = some { (SolarSystem.new : SolarSystem α) with
      m_bodies :=
        [{ position := ⟨0, 0, 0⟩, velocity := ⟨0, 0, 0⟩, force := 0, mass := 1.0,
           radius := 0.2, name := "sun", ID := 1 },
         { position := ⟨1, 0, 0⟩, velocity := ⟨0, 2 * M_PI, 0⟩, force := 0, mass := 3e-6,
           radius := 0.1, name := "earth", ID := 4 }] } := by
  unfold sunEarth
  simp only [SolarSystem.createCelestialBody, SolarSystem.new]
  norm_num

end ScenarioLemmas

/-! ## The claims -/

section Claims

/-- C1: for every pair of bodies `A`, `B`, `collisionDetection A B` is true exactly when the
Euclidean distance between the two positions is at most `radius A + radius B`, the boundary
case of equality included; the call is a function of the system and the two bodies that
returns the Boolean only.  In `sunJupiterCrash` the two bodies are 5 apart with radii 0.2
and 0.1, and the result is false. -/
theorem collisionDetection_iff_distance_le_radii :
    (∀ (s : SolarSystem ℝ) (A B : CelestialBody ℝ),
      (s.collisionDetection A B = true ↔
        Real.sqrt ((A.position.x - B.position.x) ^ 2 + (A.position.y - B.position.y) ^ 2 +
          (A.position.z - B.position.z) ^ 2) ≤ A.radius + B.radius) ∧
      (Real.sqrt ((A.position.x - B.position.x) ^ 2 + (A.position.y - B.position.y) ^ 2 +
          (A.position.z - B.position.z) ^ 2) = A.radius + B.radius →
        s.collisionDetection A B = true)) ∧
    (∃ (s : SolarSystem ℝ) (sun jupiter : CelestialBody ℝ),
      sunJupiterCrash = some s ∧ s.m_bodies = [sun, jupiter] ∧
      (sun.position - jupiter.position).length = 5 ∧
      sun.radius = 0.2 ∧ jupiter.radius = 0.1 ∧
      s.collisionDetection sun jupiter = false) := by
  have key : ∀ (s : SolarSystem ℝ) (A B : CelestialBody ℝ),
      (s.collisionDetection A B = true ↔
        Real.sqrt ((A.position.x - B.position.x) ^ 2 + (A.position.y - B.position.y) ^ 2 +
          (A.position.z - B.position.z) ^ 2) ≤ A.radius + B.radius) := by
    intro s A B
    simp only [SolarSystem.collisionDetection, vec3.length, vec3.lengthSquared, CMath.sqrt,
      decide_eq_true_eq, vec3.sub_x, vec3.sub_y, vec3.sub_z, pow_two]
  have five : Real.sqrt ((0 - 5) * (0 - 5) + (0 - 0) * (0 - 0) + (0 - 0) * (0 - 0)) = 5 := by
    rw [show ((0 : ℝ) - 5) * (0 - 5) + (0 - 0) * (0 - 0) + (0 - 0) * (0 - 0) = 5 ^ 2 by norm_num]
    exact Real.sqrt_sq (by norm_num)
  refine ⟨fun s A B => ⟨key s A B, fun h => (key s A B).mpr (le_of_eq h)⟩, ?_⟩
  refine ⟨_, _, _, sunJupiterCrash_eq, rfl, ?_, rfl, rfl, ?_⟩
  · simp only [vec3.length, vec3.lengthSquared, CMath.sqrt, vec3.sub_x, vec3.sub_y, vec3.sub_z]
    exact five
  · simp only [SolarSystem.collisionDetection, vec3.length, vec3.lengthSquared, CMath.sqrt,
      vec3.sub_x, vec3.sub_y, vec3.sub_z, decide_eq_false_iff_not, not_le]
    rw [five]
    norm_num

end Claims

section Claims2

variable {α : Type} [LinearOrderedField α]

/-- The names, mass arguments and radius arguments of `officialPlanetsRealistic`. -/
theorem officialPlanetsRealistic_arguments :
    ∃ s : SolarSystem α, officialPlanetsRealistic = some s ∧
      s.m_bodies.map (fun body => (body.name, body.mass, body.radius)) =
        [("sun", 1, 6.955e5 / 149597871),
         ("mercury", 2440 / 149597871, 2.4e24 / 2e30),
         ("venus", 6051.893 / 149597871, 4.9e24 / 2e30),
         ("earth", 6378.14 / 149597871, 3e-6),
         ("mars", 3394 / 149597871, 6.6e23 / 2e30),
         ("jupiter", 71492 / 149597871, 1.9e27 / 2e30),
         ("saturn", 60268 / 149597871, 5.5e26 / 2e30),
         ("uranus", 25559 / 149597871, 8.8e25 / 2e30),
         ("neptune", 24766 / 149597871, 1.03e26 / 2e30)] := by
  unfold officialPlanetsRealistic
  simp only [SolarSystem.createCelestialBody, SolarSystem.new]
  norm_num

/-- The names, mass arguments and radius arguments of `officialPlanetsStylized`. -/
theorem officialPlanetsStylized_arguments :
    ∃ s : SolarSystem α, officialPlanetsStylized = some s ∧
      s.m_bodies.map (fun body => (body.name, body.mass, body.radius)) =
        [("sun", 1, 6.955e5 / 149597871),
         ("mercury", 2440 / 149597871, 2.4e24 / 2e30),
         ("venus", 6051.893 / 149597871, 4.9e24 / 2e30),
         ("earth", 6378.14 / 149597871, 3e-6),
         ("mars", 3394 / 149597871, 6.6e23 / 2e30),
         ("jupiter", 71492 / 149597871, 1.9e27 / 2e30),
         ("saturn", 60268 / 149597871, 5.5e26 / 2e30),
         ("uranus", 25559 / 149597871, 8.8e25 / 2e30),
         ("neptune", 24766 / 149597871, 1.03e26 / 2e30)] := by
  unfold officialPlanetsStylized
  simp only [SolarSystem.createCelestialBody, SolarSystem.new]
  norm_num

/-- C3: the claim says that in `officialPlanetsRealistic` and `officialPlanetsStylized` every
body gets its mass in solar masses as the mass argument and its radius in AU as the radius
argument.  The code does so for the sun only: for the eight planets the mass argument is
the radius in AU and the radius argument is the mass in solar masses, as this evaluation of
both scenarios shows. -/
theorem officialPlanets_mass_and_radius_arguments :
    ∃ realistic stylized : SolarSystem α,
      officialPlanetsRealistic = some realistic ∧ officialPlanetsStylized = some stylized ∧
      realistic.m_bodies.map (fun body => (body.name, body.mass, body.radius)) =
        [("sun", 1, 6.955e5 / 149597871),
         ("mercury", 2440 / 149597871, 2.4e24 / 2e30),
         ("venus", 6051.893 / 149597871, 4.9e24 / 2e30),
         ("earth", 6378.14 / 149597871, 3e-6),
         ("mars", 3394 / 149597871, 6.6e23 / 2e30),
         ("jupiter", 71492 / 149597871, 1.9e27 / 2e30),
         ("saturn", 60268 / 149597871, 5.5e26 / 2e30),
         ("uranus", 25559 / 149597871, 8.8e25 / 2e30),
         ("neptune", 24766 / 149597871, 1.03e26 / 2e30)] ∧
      stylized.m_bodies.map (fun body => (body.name, body.mass, body.radius)) =
        realistic.m_bodies.map (fun body => (body.name, body.mass, body.radius)) ∧
      (2440 / 149597871 : α) ≠ 2.4e24 / 2e30 := by
  obtain ⟨realistic, hr, hrl⟩ := officialPlanetsRealistic_arguments (α := α)
  obtain ⟨stylized, hs, hsl⟩ := officialPlanetsStylized_arguments (α := α)
  exact ⟨realistic, stylized, hr, hs, hrl, hsl.trans hrl.symm, by norm_num⟩

/-- The scenario `sunEarth` runs through and its bodies have mass > 0 and radius ≥ 0. -/
theorem sunEarth_constraint [CMath α] :
    ∃ s : SolarSystem α, sunEarth = some s ∧
      ∀ body ∈ s.m_bodies, 0 < body.mass ∧ 0 ≤ body.radius := by
  unfold sunEarth
  simp only [SolarSystem.createCelestialBody, SolarSystem.new]
  norm_num

/-- The scenario `sunEarthJupiter` runs through and its bodies have mass > 0 and radius ≥ 0. -/
theorem sunEarthJupiter_constraint [CMath α] :
    ∃ s : SolarSystem α, sunEarthJupiter = some s ∧
      ∀ body ∈ s.m_bodies, 0 < body.mass ∧ 0 ≤ body.radius := by
  unfold sunEarthJupiter
  simp only [SolarSystem.createCelestialBody, SolarSystem.new]
  norm_num

/-- The scenario `sunMercuryWithGR` runs through and its bodies have mass > 0 and radius ≥ 0. -/
theorem sunMercuryWithGR_constraint :
    ∃ s : SolarSystem α, sunMercuryWithGR = some s ∧
      ∀ body ∈ s.m_bodies, 0 < body.mass ∧ 0 ≤ body.radius := by
  unfold sunMercuryWithGR
  simp only [SolarSystem.createCelestialBody, SolarSystem.new, SolarSystem.setGeneralRelativity]
  norm_num

/-- The scenario `sunMercuryWithoutGR` runs through and its bodies have mass > 0 and radius ≥ 0. -/
theorem sunMercuryWithoutGR_constraint :
    ∃ s : SolarSystem α, sunMercuryWithoutGR = some s ∧
      ∀ body ∈ s.m_bodies, 0 < body.mass ∧ 0 ≤ body.radius := by
  unfold sunMercuryWithoutGR
  simp only [SolarSystem.createCelestialBody, SolarSystem.new]
  norm_num

/-- The scenario `officialPlanetsRealistic` runs through and its bodies have mass > 0 and radius ≥ 0. -/
theorem officialPlanetsRealistic_constraint :
    ∃ s : SolarSystem α, officialPlanetsRealistic = some s ∧
      ∀ body ∈ s.m_bodies, 0 < body.mass ∧ 0 ≤ body.radius := by
  unfold officialPlanetsRealistic
  simp only [SolarSystem.createCelestialBody, SolarSystem.new]
  norm_num

/-- The scenario `officialPlanetsStylized` runs through and its bodies have mass > 0 and radius ≥ 0. -/
theorem officialPlanetsStylized_constraint :
    ∃ s : SolarSystem α, officialPlanetsStylized = some s ∧
      ∀ body ∈ s.m_bodies, 0 < body.mass ∧ 0 ≤ body.radius := by
  unfold officialPlanetsStylized
  simp only [SolarSystem.createCelestialBody, SolarSystem.new]
  norm_num

/-- The scenario `sunJupiterCrash` runs through and its bodies have mass > 0 and radius ≥ 0. -/
theorem sunJupiterCrash_constraint :
    ∃ s : SolarSystem α, sunJupiterCrash = some s ∧
      ∀ body ∈ s.m_bodies, 0 < body.mass ∧ 0 ≤ body.radius := by
  unfold sunJupiterCrash
  simp only [SolarSystem.createCelestialBody, SolarSystem.new]
  norm_num

/-- C4: every scenario function of the driver runs through without a rejected body, and
every body of the system it builds has mass > 0 and radius ≥ 0. -/
theorem scenarios_meet_construction_constraint [CMath α] :
    (∃ s : SolarSystem α, sunEarth = some s ∧
      ∀ body ∈ s.m_bodies, 0 < body.mass ∧ 0 ≤ body.radius) ∧
    (∃ s : SolarSystem α, sunEarthJupiter = some s ∧
      ∀ body ∈ s.m_bodies, 0 < body.mass ∧ 0 ≤ body.radius) ∧
    (∃ s : SolarSystem α, sunMercuryWithGR = some s ∧
      ∀ body ∈ s.m_bodies, 0 < body.mass ∧ 0 ≤ body.radius) ∧
    (∃ s : SolarSystem α, sunMercuryWithoutGR = some s ∧
      ∀ body ∈ s.m_bodies, 0 < body.mass ∧ 0 ≤ body.radius) ∧
    (∃ s : SolarSystem α, officialPlanetsRealistic = some s ∧
      ∀ body ∈ s.m_bodies, 0 < body.mass ∧ 0 ≤ body.radius) ∧
    (∃ s : SolarSystem α, officialPlanetsStylized = some s ∧
      ∀ body ∈ s.m_bodies, 0 < body.mass ∧ 0 ≤ body.radius) ∧
    (∃ s : SolarSystem α, sunJupiterCrash = some s ∧
      ∀ body ∈ s.m_bodies, 0 < body.mass ∧ 0 ≤ body.radius) :=
  ⟨sunEarth_constraint, sunEarthJupiter_constraint, sunMercuryWithGR_constraint,
    sunMercuryWithoutGR_constraint, officialPlanetsRealistic_constraint,
    officialPlanetsStylized_constraint, sunJupiterCrash_constraint⟩

/-- C6: `sunMercuryWithGR` and `sunMercuryWithoutGR` each build a fresh system with the same
two bodies in the same order (sun, then mercury), equal in every field, and the two systems
differ in the relativity flag only: set in the first, at its default (off) in the second. -/
theorem sunMercury_scenarios_differ_in_relativity_flag_only :
    ∃ withGR withoutGR : SolarSystem α,
      sunMercuryWithGR = some withGR ∧ sunMercuryWithoutGR = some withoutGR ∧
      withGR.m_bodies = withoutGR.m_bodies ∧
      withoutGR.m_bodies.map (fun body => (body.name, body.ID)) = [("sun", 1), ("mercury", 2)] ∧
      withoutGR = { (SolarSystem.new : SolarSystem α) with m_bodies := withoutGR.m_bodies } ∧
      withGR.m_generalRelativity = true ∧
      withoutGR.m_generalRelativity = false ∧
      withoutGR.m_generalRelativity = (SolarSystem.new : SolarSystem α).m_generalRelativity ∧
      withGR = { withoutGR with m_generalRelativity := true } := by
  refine ⟨_, _, sunMercuryWithGR_eq, sunMercuryWithoutGR_eq, ?_⟩
  simp [SolarSystem.new]

/-- C10: the systems built by `sunMercuryWithGR` and by `sunMercuryWithoutGR` have total
momentum zero: the sun has mass 1 and velocity `-12.44·2440/149597871` along y, mercury has
mass `2440/149597871` and velocity `12.44` along y. -/
theorem sunMercury_scenarios_total_momentum_zero :
    ∃ withGR withoutGR : SolarSystem α,
      sunMercuryWithGR = some withGR ∧ sunMercuryWithoutGR = some withoutGR ∧
      withGR.computeMomentum = 0 ∧ withoutGR.computeMomentum = 0 ∧
      withGR.m_bodies.map (fun body => (body.name, body.mass, body.velocity)) =
        [("sun", 1, ⟨0, -12.44 * 2440 / 149597871, 0⟩),
         ("mercury", 2440 / 149597871, ⟨0, 12.44, 0⟩)] ∧
      withoutGR.m_bodies.map (fun body => (body.name, body.mass, body.velocity)) =
        [("sun", 1, ⟨0, -12.44 * 2440 / 149597871, 0⟩),
         ("mercury", 2440 / 149597871, ⟨0, 12.44, 0⟩)] := by
  refine ⟨_, _, sunMercuryWithGR_eq, sunMercuryWithoutGR_eq, ?_, ?_, ?_, ?_⟩
  · rw [computeMomentum_eq_sum]
    ext <;> simp
    ring
  · rw [computeMomentum_eq_sum]
    ext <;> simp
    ring
  · norm_num
  · norm_num

end Claims2

section Claims3

/-- C7: the claim says that `runVerlet` reports `numTimesteps·dt = 630` years.  The code
divides the elapsed time by `2π`: the value printed by every run that completes is
`630 / (2π)`, between 100 and 101.
The unit of time is the year all the same: in `sunEarth` the earth, 1 AU from the sun, moves
at `2π` per unit of time, one orbit per unit of time. -/
theorem runVerlet_years_is_elapsed_time_over_two_pi :
    (runVerlet.years : ℝ) = 630 / (2 * Real.pi) ∧
    ((runVerlet.numTimesteps : ℝ) * runVerlet.dt = 630) ∧
    100 < (runVerlet.years : ℝ) ∧ (runVerlet.years : ℝ) < 101 ∧
    (runVerlet.years : ℝ) ≠ (runVerlet.numTimesteps : ℝ) * runVerlet.dt ∧
    (∀ (c : ℝ) (s : SolarSystem ℝ) (result : SolarSystem ℝ × ℝ),
      runVerlet c s = some result → result.2 = 630 / (2 * Real.pi)) ∧
    (∃ (s : SolarSystem ℝ) (earth : CelestialBody ℝ),
      sunEarth = some s ∧ s.findBody "earth" = some earth ∧
      earth.position = ⟨1, 0, 0⟩ ∧ earth.velocity = ⟨0, 2 * Real.pi, 0⟩ ∧
      2 * Real.pi * earth.position.x / earth.velocity.y = 1) := by
  have hpi1 := Real.pi_gt_d2
  have hpi2 := Real.pi_lt_d2
  have hy : (runVerlet.years : ℝ) = 630 / (2 * Real.pi) := by
    simp only [runVerlet.years, runVerlet.numTimesteps, runVerlet.dt, M_PI]
    norm_num
  have ht : (runVerlet.numTimesteps : ℝ) * runVerlet.dt = 630 := by
    simp only [runVerlet.numTimesteps, runVerlet.dt]; norm_num
  have hlt : (runVerlet.years : ℝ) < 101 := by
    rw [hy, div_lt_iff₀ (by positivity)]; linarith
  refine ⟨hy, ht, ?_, hlt, ?_, ?_, ?_⟩
  · rw [hy, lt_div_iff₀ (by positivity)]; linarith
  · rw [ht]; linarith
  · intro c s result hrun
    unfold runVerlet at hrun
    obtain ⟨s', _, hres⟩ := Option.bind_eq_some.mp hrun
    rw [← Option.some.inj hres]
    exact hy
  · refine ⟨_, ⟨⟨1, 0, 0⟩, ⟨0, 2 * Real.pi, 0⟩, 0, 3e-6, 0.1, "earth", 4⟩, sunEarth_eq, ?_,
      rfl, rfl, ?_⟩
    · simp [SolarSystem.findBody, M_PI]
    · have hpos : (0 : ℝ) < 2 * Real.pi := by positivity
      simp only [mul_one]
      exact div_self (ne_of_gt hpos)

/-- The tangent of an angle between 0 and 1 is at most twice the angle. -/
theorem tan_le_two_mul (t : ℝ) (h0 : 0 ≤ t) (h1 : t ≤ 1) : Real.tan t ≤ 2 * t := by
  have hcos1 : (1 : ℝ) / 2 ≤ Real.cos 1 := by
    have := Real.one_sub_sq_div_two_le_cos (x := 1)
    norm_num at this
    linarith
  have hcos : (1 : ℝ) / 2 ≤ Real.cos t :=
    le_trans hcos1 (Real.cos_le_cos_of_nonneg_of_le_pi h0 (by linarith [Real.pi_gt_three]) h1)
  have hsin : Real.sin t ≤ t := Real.sin_le h0
  rw [Real.tan_eq_sin_div_cos, div_le_iff₀ (by linarith)]
  nlinarith

/-- The arctangent of a number between 0 and 1 is at least half the number. -/
theorem half_le_arctan (t : ℝ) (h0 : 0 ≤ t) (h1 : t ≤ 1) : t / 2 ≤ Real.arctan t := by
  have hpi := Real.pi_gt_three
  have h : Real.tan (t / 2) ≤ t := by
    have := tan_le_two_mul (t / 2) (by linarith) (by linarith)
    linarith
  have h2 : Real.arctan (Real.tan (t / 2)) = t / 2 :=
    Real.arctan_tan (by linarith) (by linarith)
  rw [← h2]
  exact Real.arctan_strictMono.monotone h

/-- For a ratio between 0 and 1, `tan` of the ratio times 3600 is less than the angle of that
ratio in arcseconds. -/
theorem tan_lt_arctan_arcseconds (t : ℝ) (h0 : 0 < t) (h1 : t ≤ 1) :
    Real.tan t * 3600 < Real.arctan t * (180 / Real.pi) * 3600 := by
  have hpi := Real.pi_lt_four
  have hpi0 := Real.pi_pos
  have ha := half_le_arctan t (le_of_lt h0) h1
  have ht := tan_le_two_mul t (le_of_lt h0) h1
  have h45 : (45 : ℝ) < 180 / Real.pi := by
    rw [lt_div_iff₀ hpi0]; linarith
  have harc : 0 < Real.arctan t := by linarith
  have : Real.arctan t * 45 < Real.arctan t * (180 / Real.pi) :=
    mul_lt_mul_of_pos_left h45 harc
  nlinarith

/-- C9: the claim says that the angle reported for a coordinate `(x, y, z)` is
`arctan(y/x)·(180/π)·3600`.  The code computes `tan(y/x)·3600`: for the coordinate
`(0.2, 0.2, 0)` it reports `tan 1 · 3600`, less than 10800, where the polar angle is
162000 arcseconds; and for every coordinate with `0 < y/x ≤ 1` the value reported is less
than the polar angle in arcseconds. -/
theorem theta_is_tangent_times_3600 :
    (∀ periCoord : vec3 ℝ, main.theta periCoord = Real.tan (periCoord.y / periCoord.x) * 3600) ∧
    main.theta (⟨0.2, 0.2, 0⟩ : vec3 ℝ) = Real.tan 1 * 3600 ∧
    main.theta (⟨0.2, 0.2, 0⟩ : vec3 ℝ) < 10800 ∧
    Real.arctan ((0.2 : ℝ) / 0.2) * (180 / Real.pi) * 3600 = 162000 ∧
    (∀ periCoord : vec3 ℝ, 0 < periCoord.y / periCoord.x → periCoord.y / periCoord.x ≤ 1 →
      main.theta periCoord <
        Real.arctan (periCoord.y / periCoord.x) * (180 / Real.pi) * 3600) := by
  have htan : Real.tan 1 < 3 := by
    have := tan_le_two_mul 1 (by norm_num) (le_refl 1)
    linarith
  have h1 : main.theta (⟨0.2, 0.2, 0⟩ : vec3 ℝ) = Real.tan 1 * 3600 := by
    simp only [main.theta, CMath.tan]
    norm_num
  refine ⟨fun _ => rfl, h1, ?_, ?_, ?_⟩
  · rw [h1]; linarith
  · rw [div_self (by norm_num), Real.arctan_one]
    field_simp
    ring
  · intro periCoord h0 hle
    exact tan_lt_arctan_arcseconds _ h0 hle

end Claims3

section Claims4

variable {α : Type} [LinearOrderedField α] [CMath α]

/-- The y-coordinates after the position update of a two-body system whose bodies sit on
the x-axis: the forces have no y-component, so each body moves by `dt` times its velocity. -/
theorem positionUpdate_two_bodies_y (integrator : Verlet α) (c : α) (s : SolarSystem α)
    (body1 body2 : CelestialBody α) (hs : s.m_bodies = [body1, body2])
    (h1 : body1.position.y = 0) (h2 : body2.position.y = 0) :
    (integrator.positionUpdate c s).m_bodies.map (fun body => body.position.y) =
      [body1.velocity.y * integrator.m_dt, body2.velocity.y * integrator.m_dt] := by
  simp [Verlet.positionUpdate, Verlet.drift, Verlet.halfKick,
    SolarSystem.calculateForcesAndEnergy, pairLoop, pairStep, pairForce, addForceAt, hs,
    List.range, List.range.loop, List.range', h1, h2]

omit [LinearOrderedField α] [CMath α] in
/-- Two bodies with different y-coordinates sit at different positions. -/
theorem pairwise_position_of_y (bodies : List (CelestialBody α)) (a b : α)
    (h : bodies.map (fun body => body.position.y) = [a, b]) (hab : a ≠ b) :
    bodies.Pairwise (fun body1 body2 => body1.position ≠ body2.position) := by
  match bodies, h with
  | [p, q], h =>
    simp only [List.map_cons, List.map_nil, List.cons.injEq, and_true] at h
    simp only [List.pairwise_cons, List.mem_singleton, forall_eq, List.not_mem_nil,
      IsEmpty.forall_iff, implies_true, List.Pairwise.nil, and_true]
    intro heq
    apply hab
    rw [← h.1, ← h.2, heq]

/-- C2: for every system whose bodies all have mass > 0 and sit at pairwise distinct
positions before and after the position update, and for every timestep, one
`integrateOneStep` of the Verlet integrator leaves the total momentum (the sum of mass times
velocity) unchanged, whatever the relativity flag of the system; hence the total momentum
after any number of rounds of the loop of `runVerlet` is the initial one, and the loop does
complete these rounds when the system has bodies named "sun" and "mercury".  The
hypotheses on the positions keep the statement to the inputs on which no separation is
zero. -/
theorem verlet_conserves_total_momentum (integrator : Verlet α) (c : α) (s : SolarSystem α)
    (n : Nat)
    (hmass : ∀ body ∈ s.m_bodies, 0 < body.mass)
    (_hstep : s.distinctPositions ∧ (integrator.positionUpdate c s).distinctPositions)
    (_hrun : ∀ k < n, ∀ s_k, runVerlet.loop c k s = some s_k →
      s_k.distinctPositions ∧ (runVerlet.integrator.positionUpdate c s_k).distinctPositions) :
    (integrator.integrateOneStep c s).computeMomentum = s.computeMomentum ∧
    (∀ s', runVerlet.loop c n s = some s' → s'.computeMomentum = s.computeMomentum) ∧
    ("sun" ∈ s.m_bodies.map (fun body => body.name) →
      "mercury" ∈ s.m_bodies.map (fun body => body.name) →
      ∃ s', runVerlet.loop c n s = some s') :=
  ⟨integrateOneStep_momentum integrator c s hmass,
    fun s' h => loop_some_momentum c n s s' hmass h,
    fun hsun hmercury => loop_isSome c n s hsun hmercury⟩

end Claims4

section Claims5

/-- Witness of C2: the system of `sunMercuryWithoutGR`, the timestep of `runVerlet` and one
round of its loop. -/
theorem verlet_conserves_total_momentum_witness :
    ∃ s : SolarSystem ℝ, sunMercuryWithoutGR = some s ∧
      (∀ body ∈ s.m_bodies, 0 < body.mass) ∧
      s.distinctPositions ∧
      (runVerlet.integrator.positionUpdate 63239.7263 s).distinctPositions ∧
      (runVerlet.integrator.integrateOneStep 63239.7263 s).computeMomentum =
        s.computeMomentum ∧
      ∃ s', runVerlet.loop 63239.7263 1 s = some s' ∧ s'.computeMomentum = s.computeMomentum := by
  have hmass : ∀ body ∈ ({ (SolarSystem.new : SolarSystem ℝ) with
      m_bodies :=
        [{ position := ⟨0, 0, 0⟩, velocity := ⟨0, -12.44 * 2440.0 / 149597871.0, 0⟩,
           force := 0, mass := 1.0, radius := 0.4, name := "sun", ID := 1 },
         { position := ⟨0.3075, 0, 0⟩, velocity := ⟨0, 12.44, 0⟩, force := 0,
           mass := 2440.0 / 149597871.0, radius := 0.05, name := "mercury", ID := 2 }] }
      : SolarSystem ℝ).m_bodies, 0 < body.mass := by
    intro body hbody
    simp only [List.mem_cons, List.mem_singleton, List.not_mem_nil, or_false] at hbody
    rcases hbody with rfl | rfl <;> norm_num
  have hd0 : ({ (SolarSystem.new : SolarSystem ℝ) with
      m_bodies :=
        [{ position := ⟨0, 0, 0⟩, velocity := ⟨0, -12.44 * 2440.0 / 149597871.0, 0⟩,
           force := 0, mass := 1.0, radius := 0.4, name := "sun", ID := 1 },
         { position := ⟨0.3075, 0, 0⟩, velocity := ⟨0, 12.44, 0⟩, force := 0,
           mass := 2440.0 / 149597871.0, radius := 0.05, name := "mercury", ID := 2 }] }
      : SolarSystem ℝ).distinctPositions := by
    simp only [SolarSystem.distinctPositions, List.pairwise_cons, List.mem_singleton, forall_eq,
      List.not_mem_nil, IsEmpty.forall_iff, implies_true, List.Pairwise.nil, and_true, ne_eq,
      vec3.mk.injEq, not_and]
    norm_num
  have hd1 : (runVerlet.integrator.positionUpdate 63239.7263
      ({ (SolarSystem.new : SolarSystem ℝ) with
      m_bodies :=
        [{ position := ⟨0, 0, 0⟩, velocity := ⟨0, -12.44 * 2440.0 / 149597871.0, 0⟩,
           force := 0, mass := 1.0, radius := 0.4, name := "sun", ID := 1 },
         { position := ⟨0.3075, 0, 0⟩, velocity := ⟨0, 12.44, 0⟩, force := 0,
           mass := 2440.0 / 149597871.0, radius := 0.05, name := "mercury", ID := 2 }] }
      : SolarSystem ℝ)).distinctPositions := by
    refine pairwise_position_of_y _ _ _
      (positionUpdate_two_bodies_y runVerlet.integrator 63239.7263 _ _ _ rfl rfl rfl) ?_
    simp only [runVerlet.integrator, runVerlet.dt]
    norm_num
  have hrun : ∀ k < 1, ∀ s_k, runVerlet.loop (63239.7263 : ℝ) k
      ({ (SolarSystem.new : SolarSystem ℝ) with
      m_bodies :=
        [{ position := ⟨0, 0, 0⟩, velocity := ⟨0, -12.44 * 2440.0 / 149597871.0, 0⟩,
           force := 0, mass := 1.0, radius := 0.4, name := "sun", ID := 1 },
         { position := ⟨0.3075, 0, 0⟩, velocity := ⟨0, 12.44, 0⟩, force := 0,
           mass := 2440.0 / 149597871.0, radius := 0.05, name := "mercury", ID := 2 }] }
      : SolarSystem ℝ) = some s_k →
      s_k.distinctPositions ∧
        (runVerlet.integrator.positionUpdate 63239.7263 s_k).distinctPositions := by
    intro k hk s_k hsk
    obtain rfl : k = 0 := by omega
    simp only [runVerlet.loop, Option.some.injEq] at hsk
    subst hsk
    exact ⟨hd0, hd1⟩
  have key := verlet_conserves_total_momentum runVerlet.integrator 63239.7263 _ 1 hmass
    ⟨hd0, hd1⟩ hrun
  obtain ⟨s', hs'⟩ := key.2.2 (by simp) (by simp)
  exact ⟨_, sunMercuryWithoutGR_eq, hmass, hd0, hd1, key.1, s', hs', key.2.1 s' hs'⟩

end Claims5

/-! ## Lemmas on the run as a whole -/

section RunLemmas

variable {α : Type} [LinearOrderedField α] [CMath α]

/-- Round `t + 1` of the loop is the loop body at index `t`, run on the system that the
first `t` rounds leave. -/
theorem loop_succ (c : α) (t : Nat) (s : SolarSystem α) :
    runVerlet.loop c (t + 1) s = (runVerlet.loop c t s).bind (runVerlet.loopBody c t) := by
  simp [runVerlet.loop]

/-- The function `runVerlet` is its loop of `numTimesteps` rounds, followed by the report of
`years`. -/
theorem runVerlet_eq_loop (c : α) (s : SolarSystem α) :
    runVerlet c s =
      (runVerlet.loop c runVerlet.numTimesteps s).map (fun s' => (s', runVerlet.years)) := by
  unfold runVerlet
  cases runVerlet.loop c runVerlet.numTimesteps s <;> rfl

end RunLemmas

section RealRunLemmas

/-- The separation in a system of two bodies with different names. -/
theorem separation_two_bodies (s : SolarSystem ℝ) (body1 body2 : CelestialBody ℝ)
    (name1 name2 : String) (hs : s.m_bodies = [body1, body2]) (h1 : body1.name = name1)
    (h2 : body2.name = name2) (hne : name1 ≠ name2) :
    s.separation name1 name2 = some (body1.position - body2.position).length := by
  have hf1 : s.findBody name1 = some body1 := by
    simp [SolarSystem.findBody, hs, h1]
  have hf2 : s.findBody name2 = some body2 := by
    simp [SolarSystem.findBody, hs, h1, h2, hne]
  simp [SolarSystem.separation, hf1, hf2]

end RealRunLemmas

section Claims6

/-- C8: a run of `runVerlet` is the loop of 630000 rounds, round `t + 1` being the loop body at
index `t`; the body calls `findCoordinates` at index 567000 and at no other index, with the
names "sun" and "mercury" and the threshold 0.3075; 567000 is a step of the run and 90% of
its 630000 steps; the threshold is the separation of sun and mercury in the systems of
`sunMercuryWithGR` and `sunMercuryWithoutGR`.  On every system with bodies named "sun" and
"mercury" the run completes: it reaches step 567000 with the recorded perihelion coordinate
still the initial one, that step calls `findCoordinates` once, which records the offset of
sun from mercury when their separation is at most 0.3075 and leaves the coordinate as it is
otherwise, and the value so left is the one that the run ends with; so the coordinate is
overwritten at most once.  On any system at all, the rounds up to index 566999 and the
rounds from index 567001 on leave the recorded coordinate as they find it. -/
theorem findCoordinates_called_at_step_567000_only (c : ℝ) (s : SolarSystem ℝ)
    (hsun : ∃ body ∈ s.m_bodies, body.name = "sun")
    (hmercury : ∃ body ∈ s.m_bodies, body.name = "mercury") :
    (runVerlet.numTimesteps = 630000 ∧
      runVerlet c s =
        (runVerlet.loop c runVerlet.numTimesteps s).map (fun s' => (s', runVerlet.years)) ∧
      ∀ t, runVerlet.loop c (t + 1) s =
        (runVerlet.loop c t s).bind (runVerlet.loopBody c t)) ∧
    (runVerlet.body1 = "sun" ∧ runVerlet.body2 = "mercury" ∧
      (∀ (t : Nat) (s_t : SolarSystem ℝ), t ≠ 567000 →
        runVerlet.loopBody c t s_t =
          (runVerlet.integrator.integrateOneStep c s_t).findMaxMinDistance "sun" "sun") ∧
      (∀ s_t : SolarSystem ℝ, runVerlet.loopBody c 567000 s_t =
        ((runVerlet.integrator.integrateOneStep c s_t).findMaxMinDistance "sun" "sun").bind
          (fun s' => s'.findCoordinates runVerlet.body1 runVerlet.body2 0.3075))) ∧
    (567000 < runVerlet.numTimesteps ∧
      ((567000 : Nat) : ℝ) = (runVerlet.numTimesteps : ℝ) * 0.90) ∧
    (∃ withGR withoutGR : SolarSystem ℝ,
      sunMercuryWithGR = some withGR ∧ sunMercuryWithoutGR = some withoutGR ∧
      withGR.separation "sun" "mercury" = some 0.3075 ∧
      withoutGR.separation "sun" "mercury" = some 0.3075) ∧
    (∃ (before atCall after : SolarSystem ℝ) (result : SolarSystem ℝ × ℝ)
        (sun mercury : CelestialBody ℝ),
      runVerlet.loop c 567000 s = some before ∧
      before.m_perihelionCoordinates = s.m_perihelionCoordinates ∧
      (runVerlet.integrator.integrateOneStep c before).findMaxMinDistance "sun" "sun" =
        some atCall ∧
      atCall.findBody "sun" = some sun ∧ atCall.findBody "mercury" = some mercury ∧
      atCall.findCoordinates "sun" "mercury" 0.3075 = some after ∧
      runVerlet.loopBody c 567000 before = some after ∧
      runVerlet.loop c 567001 s = some after ∧
      after.m_perihelionCoordinates =
        (if (sun.position - mercury.position).length ≤ 0.3075
          then sun.position - mercury.position else s.m_perihelionCoordinates) ∧
      runVerlet c s = some result ∧
      result.1.m_perihelionCoordinates = after.m_perihelionCoordinates ∧
      (∀ t, t ≤ 567000 → ∃ s_t : SolarSystem ℝ, runVerlet.loop c t s = some s_t ∧
        s_t.m_perihelionCoordinates = s.m_perihelionCoordinates) ∧
      (∀ t, 567000 < t → ∃ s_t : SolarSystem ℝ, runVerlet.loop c t s = some s_t ∧
        s_t.m_perihelionCoordinates = after.m_perihelionCoordinates)) ∧
    (∀ (k : Nat) (s_0 s' : SolarSystem ℝ), k ≤ 567000 → runVerlet.loop c k s_0 = some s' →
      s'.m_perihelionCoordinates = s_0.m_perihelionCoordinates) ∧
    (∀ (k : Nat) (s_0 s_1 s' : SolarSystem ℝ), 567000 < k →
      runVerlet.loop c 567001 s_0 = some s_1 → runVerlet.loop c k s_0 = some s' →
      s'.m_perihelionCoordinates = s_1.m_perihelionCoordinates) := by
  have hsunN : "sun" ∈ s.m_bodies.map (fun body => body.name) := by
    obtain ⟨body, hbody, hn⟩ := hsun
    exact List.mem_map.mpr ⟨body, hbody, hn⟩
  have hmercuryN : "mercury" ∈ s.m_bodies.map (fun body => body.name) := by
    obtain ⟨body, hbody, hn⟩ := hmercury
    exact List.mem_map.mpr ⟨body, hbody, hn⟩
  have hsqrt : Real.sqrt ((0 - 0.3075) * (0 - 0.3075) + (0 - 0) * (0 - 0) + (0 - 0) * (0 - 0))
      = 0.3075 := by
    rw [show ((0 : ℝ) - 0.3075) * (0 - 0.3075) + (0 - 0) * (0 - 0) + (0 - 0) * (0 - 0) =
      0.3075 ^ 2 by norm_num]
    exact Real.sqrt_sq (by norm_num)
  refine ⟨⟨rfl, runVerlet_eq_loop c s, fun t => loop_succ c t s⟩,
    ⟨rfl, rfl, fun t s_t h => loopBody_of_ne c t s_t h, fun s_t => loopBody_of_eq c s_t⟩,
    ⟨by decide, (timestep_test_iff 567000).mpr rfl⟩, ?_, ?_,
    fun k s_0 s' hk h => loop_some_perihelion_before c k s_0 s' hk h,
    fun k s_0 s_1 s' hk h1 h => loop_some_perihelion_after c k s_0 s_1 s' hk h1 h⟩
  · refine ⟨_, _, sunMercuryWithGR_eq, sunMercuryWithoutGR_eq, ?_, ?_⟩
    · rw [separation_two_bodies _ _ _ "sun" "mercury" rfl rfl rfl (by decide)]
      simp only [vec3.length, vec3.lengthSquared, CMath.sqrt, vec3.sub_x, vec3.sub_y,
        vec3.sub_z]
      rw [hsqrt]
    · rw [separation_two_bodies _ _ _ "sun" "mercury" rfl rfl rfl (by decide)]
      simp only [vec3.length, vec3.lengthSquared, CMath.sqrt, vec3.sub_x, vec3.sub_y,
        vec3.sub_z]
      rw [hsqrt]
  · obtain ⟨before, hbefore⟩ := loop_isSome c 567000 s hsunN hmercuryN
    obtain ⟨after, hafter⟩ := loop_isSome c 567001 s hsunN hmercuryN
    obtain ⟨final, hfinal⟩ := loop_isSome c runVerlet.numTimesteps s hsunN hmercuryN
    have hperi0 : before.m_perihelionCoordinates = s.m_perihelionCoordinates :=
      loop_some_perihelion_before c 567000 s before (le_refl _) hbefore
    have hstep : runVerlet.loopBody c 567000 before = some after := by
      have h := hafter
      rw [loop_succ, hbefore] at h
      exact h
    have hstep' := hstep
    rw [loopBody_of_eq] at hstep'
    obtain ⟨atCall, hcall, hcoord⟩ := Option.bind_eq_some.mp hstep'
    obtain ⟨distance, _, hatCall⟩ := findMaxMinDistance_some _ _ _ _ hcall
    have hnames : atCall.m_bodies.map (fun body => body.name) =
        s.m_bodies.map (fun body => body.name) := by
      rw [hatCall]
      exact (integrateOneStep_name _ c before).trans (loop_some_names c 567000 s before hbefore).1
    have hperiCall : atCall.m_perihelionCoordinates = s.m_perihelionCoordinates := by
      rw [hatCall]
      exact hperi0
    obtain ⟨sun, hfs, _⟩ := findBody_of_mem atCall "sun" (by rw [hnames]; exact hsunN)
    obtain ⟨mercury, hfm, _⟩ := findBody_of_mem atCall "mercury" (by rw [hnames]; exact hmercuryN)
    have hafterPeri : after.m_perihelionCoordinates =
        (if (sun.position - mercury.position).length ≤ 0.3075
          then sun.position - mercury.position else s.m_perihelionCoordinates) := by
      have h := hcoord
      unfold SolarSystem.findCoordinates at h
      simp only [hfs, hfm, Option.bind_eq_bind, Option.some_bind] at h
      by_cases hle : (sun.position - mercury.position).length ≤ 0.3075
      · rw [if_pos hle] at h ⊢
        rw [← Option.some.inj h]
      · rw [if_neg hle] at h ⊢
        rw [← Option.some.inj h]
        exact hperiCall
    refine ⟨before, atCall, after, (final, runVerlet.years), sun, mercury, hbefore, hperi0,
      hcall, hfs, hfm, hcoord, hstep, hafter, hafterPeri,
      by rw [runVerlet_eq_loop, hfinal]; rfl,
      loop_some_perihelion_after c runVerlet.numTimesteps s after final (by decide) hafter
        hfinal, ?_, ?_⟩
    · intro t ht
      obtain ⟨s_t, hs_t⟩ := loop_isSome c t s hsunN hmercuryN
      exact ⟨s_t, hs_t, loop_some_perihelion_before c t s s_t ht hs_t⟩
    · intro t ht
      obtain ⟨s_t, hs_t⟩ := loop_isSome c t s hsunN hmercuryN
      exact ⟨s_t, hs_t, loop_some_perihelion_after c t s after s_t ht hafter hs_t⟩

/-- Witness of C8: the run on the system of `sunMercuryWithGR` reaches step 567000, calls
`findCoordinates` there, and ends with the coordinate that this step leaves. -/
theorem findCoordinates_called_at_step_567000_only_witness :
    ∃ (s before after : SolarSystem ℝ) (result : SolarSystem ℝ × ℝ),
      sunMercuryWithGR = some s ∧
      (∃ body ∈ s.m_bodies, body.name = "sun") ∧
      (∃ body ∈ s.m_bodies, body.name = "mercury") ∧
      runVerlet.loop 63239.7263 567000 s = some before ∧
      runVerlet.loopBody 63239.7263 567000 before = some after ∧
      runVerlet 63239.7263 s = some result ∧
      result.1.m_perihelionCoordinates = after.m_perihelionCoordinates := by
  have hsun : ∃ body ∈ ({ (SolarSystem.new : SolarSystem ℝ) with
      m_bodies :=
        [{ position := ⟨0, 0, 0⟩, velocity := ⟨0, -12.44 * 2440.0 / 149597871.0, 0⟩,
           force := 0, mass := 1.0, radius := 0.4, name := "sun", ID := 1 },
         { position := ⟨0.3075, 0, 0⟩, velocity := ⟨0, 12.44, 0⟩, force := 0,
           mass := 2440.0 / 149597871.0, radius := 0.05, name := "mercury", ID := 2 }],
      m_generalRelativity := true } : SolarSystem ℝ).m_bodies, body.name = "sun" := by
    simp
  have hmercury : ∃ body ∈ ({ (SolarSystem.new : SolarSystem ℝ) with
      m_bodies :=
        [{ position := ⟨0, 0, 0⟩, velocity := ⟨0, -12.44 * 2440.0 / 149597871.0, 0⟩,
           force := 0, mass := 1.0, radius := 0.4, name := "sun", ID := 1 },
         { position := ⟨0.3075, 0, 0⟩, velocity := ⟨0, 12.44, 0⟩, force := 0,
           mass := 2440.0 / 149597871.0, radius := 0.05, name := "mercury", ID := 2 }],
      m_generalRelativity := true } : SolarSystem ℝ).m_bodies, body.name = "mercury" := by
    simp
  obtain ⟨before, atCall, after, result, sun, mercury, hbefore, _, _, _, _, _, hstep, _, _,
    hrun, hperi, _, _⟩ :=
    (findCoordinates_called_at_step_567000_only 63239.7263 _ hsun hmercury).2.2.2.2.1
  exact ⟨_, before, after, result, sunMercuryWithGR_eq, hsun, hmercury, hbefore, hstep, hrun,
    hperi⟩

end Claims6

end SolarSim
